import Mathlib

/-!
# Verification of the AnnotSV four-pass TSV importer

Shallow embedding of `AnnotSV_DB.py`: the four-pass streaming import
(`import_tsv`), the entity resolvers (`get_or_create_gene`,
`get_or_create_transcript`), and the row-level parsing helpers
(`check_annotation_mode`, `normalize_sample_id`, `parse_multiple_samples`,
`parse_numeric_value`).

The SQLite store is modelled as lists of rows; surrogate keys
(`gene_id`, `SV_id`, `Tx_id`) are `index + 1`, matching SQLite's
AUTOINCREMENT row ids for tables that are only ever appended to.
`INSERT OR IGNORE` against a PRIMARY KEY / UNIQUE constraint is modelled
as insert-if-absent on the constrained columns; the `SV` table has *no*
uniqueness constraint on its payload columns in the schema
(`create_database`), so its `INSERT OR IGNORE` always appends.
Foreign-key enforcement (`PRAGMA foreign_keys = ON`) is modelled for
`sv_samples`, the one junction whose referenced key is not produced by a
preceding query in the same code path.

Python string methods are modelled for the ASCII inputs the importer
manipulates: `str.strip` removes the whitespace characters
space/tab/LF/CR/VT/FF from both ends, `str.lower` lowercases ASCII
letters, `str.split(',')` splits on commas keeping empty fields, and
`int(s)` accepts an optional sign followed by ASCII digits with single
underscores between digits.
-/

namespace AnnotSV

/-! ## Python string primitives -/

/-- Whitespace characters removed by Python `str.strip()`. -/
def isPySpace (c : Char) : Bool :=
  c = ' ' || c = '\t' || c = '\n' || c = '\r' || c = '\x0b' || c = '\x0c'

/-- Remove trailing `isPySpace` characters. -/
def dropTrailing (l : List Char) : List Char :=
  (l.reverse.dropWhile isPySpace).reverse

/-- Python `str.strip()` on the character list. -/
def pyStripList (l : List Char) : List Char :=
  dropTrailing (l.dropWhile isPySpace)

/-- Python `str.strip()`. -/
def pyStrip (s : String) : String :=
  ⟨pyStripList s.data⟩

/-- The ASCII uppercase-to-lowercase table of Python `str.lower()`. -/
def lowerPairs : List (Char × Char) :=
  [('A', 'a'), ('B', 'b'), ('C', 'c'), ('D', 'd'), ('E', 'e'), ('F', 'f'), ('G', 'g'),
   ('H', 'h'), ('I', 'i'), ('J', 'j'), ('K', 'k'), ('L', 'l'), ('M', 'm'), ('N', 'n'),
   ('O', 'o'), ('P', 'p'), ('Q', 'q'), ('R', 'r'), ('S', 's'), ('T', 't'), ('U', 'u'),
   ('V', 'v'), ('W', 'w'), ('X', 'x'), ('Y', 'y'), ('Z', 'z')]

/-- Python `str.lower()` on a single ASCII character. -/
def asciiLowerChar (c : Char) : Char :=
  (List.lookup c lowerPairs).getD c

/-- Python `str.lower()` (ASCII fragment). -/
def pyLower (s : String) : String :=
  ⟨s.data.map asciiLowerChar⟩

/-- `splitCommaList l` splits `l` at every `','`, keeping empty fields,
like Python `str.split(',')`. -/
def splitCommaList : List Char → List (List Char)
  | [] => [[]]
  | c :: rest =>
    let r := splitCommaList rest
    if c = ',' then [] :: r
    else
      match r with
      | [] => [[c]]
      | h :: t => (c :: h) :: t

/-- Python `s.split(',')`. -/
def pySplitComma (s : String) : List String :=
  (splitCommaList s.data).map (fun l => ⟨l⟩)

/-- ASCII digit test. -/
def isDigitChar (c : Char) : Bool :=
  '0' ≤ c && c ≤ '9'

/-- After a leading digit: digits with single underscores between digits. -/
def digitsOkAux : List Char → Bool
  | [] => true
  | '_' :: c :: rest => isDigitChar c && digitsOkAux (c :: rest)
  | '_' :: [] => false
  | c :: rest => isDigitChar c && digitsOkAux rest

/-- Nonempty ASCII digit run with single underscores between digits, as
accepted by Python `int`. -/
def digitsOk : List Char → Bool
  | [] => false
  | c :: rest => isDigitChar c && digitsOkAux rest

/-- Numeric value of a digit run, skipping underscores. -/
def digitsVal (l : List Char) : Nat :=
  l.foldl (fun acc c => if c = '_' then acc else acc * 10 + (c.toNat - '0'.toNat)) 0

/-- Python `int(s)` on an already whitespace-free character list:
optional sign, then digits. -/
def pyParseIntList (l : List Char) : Option Int :=
  match l with
  | '+' :: rest => if digitsOk rest then some (digitsVal rest : Int) else none
  | '-' :: rest => if digitsOk rest then some (-(digitsVal rest : Int)) else none
  | _ => if digitsOk l then some (digitsVal l : Int) else none

/-- Python `int(s)`: `none` models `ValueError`. -/
def pyInt (s : String) : Option Int :=
  pyParseIntList (pyStripList s.data)

/-- Acceptance test for Python `float(s)` (consulted by
`parse_numeric_value` only on strings containing `'.'`; no claim in this
development depends on the float value itself, only on whether parsing
raises). -/
def splitFirst (sep : Char) : List Char → Option (List Char × List Char)
  | [] => none
  | c :: rest =>
    if c = sep then some ([], rest)
    else
      match splitFirst sep rest with
      | some (a, b) => some (c :: a, b)
      | none => none

/-- Zero or more digits (empty allowed), underscore rule as in `digitsOk`. -/
def optDigits (l : List Char) : Bool :=
  match l with
  | [] => true
  | _ => digitsOk l

/-- Mantissa of a Python float literal (a dot may be present). -/
def pyFloatMantissa (l : List Char) : Bool :=
  match splitFirst '.' l with
  | none => digitsOk l
  | some (a, b) => (optDigits a && optDigits b) && (a ≠ [] || b ≠ [])

/-- Does Python `float(s)` succeed? -/
def pyFloatAccepts (s : String) : Bool :=
  let l := (pyStripList s.data).map asciiLowerChar
  let core := (match l with | '+' :: r => r | '-' :: r => r | r => r)
  if core = "inf".data || core = "infinity".data || core = "nan".data then true
  else
    match splitFirst 'e' core with
    | none => pyFloatMantissa core
    | some (m, e) =>
      let e2 := (match e with | '+' :: r => r | '-' :: r => r | r => r)
      pyFloatMantissa m && digitsOk e2

/-! ## Input file and store model -/

/-- One data row of the TSV file, as the dict produced by
`csv.DictReader`: an association list from header column name to cell
text. -/
abbrev Row := List (String × String)

/-- `row.get(col, '')` where `col` is an optional column name (a column
variable left at `None` yields `''`). -/
def rowGet (row : Row) : Option String → String
  | none => ""
  | some c => (List.lookup c row).getD ""

/-- A TSV input file: the header line and the data rows. -/
structure InputFile where
  header : List String
  rows : List Row
deriving DecidableEq

/-- Column detection by exact, case-sensitive name match against the
header (`for val in reader.fieldnames: if val == name: column = val`). -/
def findCol (header : List String) (name : String) : Option String :=
  if name ∈ header then some name else none

/-- The column variables detected at the start of each pass of
`import_tsv` (every pass uses the same exact-match rule, so detection is
factored into one descriptor). -/
structure Columns where
  sample : Option String
  gene : Option String
  annotation_mode : Option String
  annotsv_id : Option String
  sv_chrom : Option String
  sv_start : Option String
  sv_end : Option String
  sv_type : Option String
  tx : Option String
  tx_version : Option String
  tx_start : Option String
  tx_end : Option String
  overlapped_tx_length : Option String
  overlapped_cds_length : Option String
  overlapped_cds_percent : Option String
  frameshift : Option String
  exon_count : Option String
  loc : Option String
  loc2 : Option String
  dist_nearest_ss : Option String
  nearest_ss_type : Option String
  intersect_start : Option String
  intersect_end : Option String
deriving DecidableEq

/-- Detect every recognized column of the header. -/
def detectColumns (header : List String) : Columns where
  sample := findCol header "Samples_ID"
  gene := findCol header "Gene_name"
  annotation_mode := findCol header "Annotation_mode"
  annotsv_id := findCol header "AnnotSV_ID"
  sv_chrom := findCol header "SV_chrom"
  sv_start := findCol header "SV_start"
  sv_end := findCol header "SV_end"
  sv_type := findCol header "SV_type"
  tx := findCol header "Tx"
  tx_version := findCol header "Tx_version"
  tx_start := findCol header "Tx_start"
  tx_end := findCol header "Tx_end"
  overlapped_tx_length := findCol header "Overlapped_tx_length"
  overlapped_cds_length := findCol header "Overlapped_CDS_length"
  overlapped_cds_percent := findCol header "Overlapped_CDS_percent"
  frameshift := findCol header "Frameshift"
  exon_count := findCol header "Exon_count"
  loc := findCol header "Location"
  loc2 := findCol header "Location2"
  dist_nearest_ss := findCol header "Dist_nearest_SS"
  nearest_ss_type := findCol header "Nearest_SS_type"
  intersect_start := findCol header "Intersect_start"
  intersect_end := findCol header "Intersect_end"

/-- A row of the `SV` table (payload columns; `SV_id` is the list
position + 1). -/
structure SVRow where
  annotsv_id : String
  sv_chrom : String
  sv_start : Int
  sv_end : Int
  sv_type : String
  annotation_mode : String
deriving DecidableEq

/-- A row of the `Tx` table (`Tx_id` is the list position + 1;
`tx_version` is `none` for SQL NULL, i.e. when the `Tx_version` column
is absent from the header). -/
structure TxRow where
  tx_name : String
  tx_version : Option String
  tx_start : Int
  tx_end : Int
deriving DecidableEq

/-- Result of `parse_numeric_value`: a Python int or float.  The float
is kept as its source text; no claim depends on float arithmetic. -/
inductive PyNum where
  | intVal : Int → PyNum
  | floatVal : String → PyNum
deriving DecidableEq

/-- A row of the `sv_tx` junction table with its eleven descriptive
attributes. -/
structure SvTxRow where
  sv_id : Nat
  tx_id : Nat
  overlapped_tx_length : Option PyNum
  overlapped_cds_length : Option PyNum
  overlapped_cds_percent : Option PyNum
  frameshift : Option String
  exon_count : Option PyNum
  loc : Option String
  loc2 : Option String
  dist_nearest_ss : Option PyNum
  nearest_ss_type : Option String
  intersect_start : Option PyNum
  intersect_end : Option PyNum
deriving DecidableEq

/-- The SQLite store: one list per table, in insertion (rowid) order. -/
structure DB where
  samples : List String
  genes : List String
  svs : List SVRow
  txs : List TxRow
  sv_samples : List (Nat × String)
  sv_genes : List (Nat × Nat)
  sv_tx : List SvTxRow
deriving DecidableEq

/-- A freshly created database (`create_database`). -/
def emptyDB : DB :=
  ⟨[], [], [], [], [], [], []⟩

/-- `INSERT OR IGNORE` keyed on the whole value: append unless present. -/
def insertNew {α : Type} [DecidableEq α] (l : List α) (x : α) : List α :=
  if x ∈ l then l else l ++ [x]

/-! ## Row-level helpers from the source -/

/-- Why the process dies mid-import: `exit(...)` from
`check_annotation_mode`, or an uncaught `sqlite3.IntegrityError` from a
foreign-key violation. -/
inductive Abort where
  | exitMode (msg : String)
  | integrityError
deriving DecidableEq

/-- `check_annotation_mode`: empty value exits; otherwise strip +
lower and require `full` or `split`. -/
def check_annotation_mode (value : String) : Except Abort String :=
  if value = "" then
    Except.error (Abort.exitMode "Invalid annotation mode. Must be full or split.")
  else if pyLower (pyStrip value) = "full" || pyLower (pyStrip value) = "split" then
    Except.ok (pyLower (pyStrip value))
  else
    Except.error (Abort.exitMode
      ("Invalid annotation mode " ++ pyLower (pyStrip value) ++ ". Must be full or split."))

/-- `normalize_sample_id`: empty becomes `"NA"`, otherwise strip. -/
def normalize_sample_id (sample_id : String) : String :=
  if sample_id = "" then "NA" else pyStrip sample_id

/-- `parse_multiple_samples`: split on commas, strip and normalize each
token, keep truthy tokens, and fall back to `["NA"]` when nothing
survives. -/
def parse_multiple_samples (samples_string : String) : List String :=
  let samples :=
    ((pySplitComma samples_string).map (fun s => normalize_sample_id (pyStrip s))).filter
      (fun t => t ≠ "")
  if samples = [] then ["NA"] else samples

/-- `get_or_create_gene`: select by name, else insert and return the new
id (`lastrowid`). -/
def get_or_create_gene (db : DB) (gene_name : String) : DB × Nat :=
  match db.genes.findIdx? (fun g => g == gene_name) with
  | some i => (db, i + 1)
  | none => ({ db with genes := db.genes ++ [gene_name] }, db.genes.length + 1)

/-- `get_or_create_transcript`: select by (name, version) with NULL
treated as equal to NULL, else insert and return the new id. -/
def get_or_create_transcript (db : DB) (tx_name : String) (tx_version : Option String)
    (tx_start tx_end : Int) : DB × Nat :=
  match db.txs.findIdx? (fun t => t.tx_name == tx_name && t.tx_version == tx_version) with
  | some i => (db, i + 1)
  | none =>
    ({ db with txs := db.txs ++ [⟨tx_name, tx_version, tx_start, tx_end⟩] },
      db.txs.length + 1)

/-- `parse_numeric_value`: empty or blank yields the default `None`;
a string containing `'.'` goes through `float`, anything else through
`int`; parse errors yield `None`. -/
def parse_numeric_value (value : String) : Option PyNum :=
  if value = "" || pyStrip value = "" then none
  else if value.data.contains '.' then
    if pyFloatAccepts value then some (PyNum.floatVal value) else none
  else
    (pyInt value).map PyNum.intVal

/-- `SELECT SV_id FROM SV WHERE AnnotSV_ID = ? AND Annotation_mode = ?`
followed by `fetchone()`: the first matching rowid. -/
def findSVId (db : DB) (annotsv_id mode : String) : Option Nat :=
  (db.svs.findIdx? (fun sv => sv.annotsv_id == annotsv_id && sv.annotation_mode == mode)).map
    (· + 1)

/-- `row.get(col, '').strip() if col else ''`. -/
def getStripped (row : Row) (c : Option String) : String :=
  match c with
  | some col => pyStrip (rowGet row (some col))
  | none => ""

/-- The normalized annotation-mode value read by pass 3:
`row.get(col, '').strip().lower() if col else ''`. -/
def rowModeRaw (cols : Columns) (row : Row) : String :=
  match cols.annotation_mode with
  | some c => pyLower (pyStrip (rowGet row (some c)))
  | none => ""

/-! ## Pass 1: sample collection -/

/-- The `all_samples` set of pass 1, as an insertion-ordered
duplicate-free list.  When the `Samples_ID` column is absent the row
loop of pass 1 is not executed at all, so the set stays empty. -/
def pass1_all_samples (sampleCol : Option String) (rows : List Row) : List String :=
  match sampleCol with
  | none => []
  | some c =>
    rows.foldl
      (fun acc row =>
        (parse_multiple_samples (pyStrip (rowGet row (some c)))).foldl insertNew acc)
      []

/-- Pass 1: collect samples, then `INSERT OR IGNORE` each into
`samples`.  Returns the new store and the number of INSERT statements
executed (for the transaction trace). -/
def pass1 (cols : Columns) (rows : List Row) (db : DB) : DB × Nat :=
  let all := pass1_all_samples cols.sample rows
  ({ db with samples := all.foldl insertNew db.samples }, all.length)

/-! ## Pass 2: gene collection -/

/-- One row of the pass-2 gene collection: a `split`-mode row with a
non-empty trimmed gene name adds that name to the set. -/
def pass2_row_gene (gc ac : String) (acc : List String) (row : Row) : List String :=
  if pyLower (pyStrip (rowGet row (some ac))) = "split" then
    if pyStrip (rowGet row (some gc)) ≠ "" then
      insertNew acc (pyStrip (rowGet row (some gc)))
    else acc
  else acc

/-- The `all_genes` set of pass 2: gene names of `split`-mode rows,
collected only when both the `Gene_name` and `Annotation_mode` columns
are present. -/
def pass2_all_genes (geneCol amCol : Option String) (rows : List Row) : List String :=
  match geneCol, amCol with
  | some gc, some ac => rows.foldl (pass2_row_gene gc ac) []
  | _, _ => []

/-- Pass 2: collect genes from split rows, then `INSERT OR IGNORE` each
into `genes` (unique on `gene_name`). -/
def pass2 (cols : Columns) (rows : List Row) (db : DB) : DB × Nat :=
  let all := pass2_all_genes cols.gene cols.annotation_mode rows
  ({ db with genes := all.foldl insertNew db.genes }, all.length)

/-! ## Pass 3: structural variants and SV–sample links -/

/-- The identity tuple computed for the duplicate-in-file guard:
`(AnnotSV_ID, SV_chrom, SV_start, SV_end, Annotation_mode)`. -/
abbrev SVKey := String × String × Int × Int × String

/-- In-memory state of pass 3: the store plus the counters and the
`processed_sv` duplicate guard; `writes` counts the INSERT statements
executed (for the transaction trace). -/
structure Pass3State where
  db : DB
  total_rows : Nat
  imported_rows : Nat
  skipped_rows : Nat
  full_count : Nat
  split_count : Nat
  processed_sv : List SVKey
  writes : Nat
deriving DecidableEq

/-- Initial pass-3 state over a given store. -/
def pass3_init (db : DB) : Pass3State :=
  ⟨db, 0, 0, 0, 0, 0, [], 0⟩

/-- `int(row.get(c, '').strip()) if c and row.get(c, '').strip() else 0`
— the SV coordinate parse: absent column or empty field defaults to
`0`; a non-empty field that `int` rejects is a `ValueError` (`none`). -/
def svCoordOf (c : Option String) (row : Row) : Option Int :=
  match c with
  | none => some 0
  | some col =>
    let s := pyStrip (rowGet row (some col))
    if s = "" then some 0 else pyInt s

/-- `INSERT OR IGNORE INTO sv_samples` for one sample, with the
foreign-key check on `sample_id` (`PRAGMA foreign_keys = ON`; `OR
IGNORE` does not apply to foreign keys, so a missing parent raises
`IntegrityError`). -/
def insert_sv_sample (sv_id : Nat) (st : Pass3State) (sample : String) :
    Except (Abort × Pass3State) Pass3State :=
  if (sv_id, sample) ∈ st.db.sv_samples then
    Except.ok { st with writes := st.writes + 1 }
  else if sample ∈ st.db.samples then
    Except.ok
      { st with
        db := { st.db with sv_samples := st.db.sv_samples ++ [(sv_id, sample)] }
        writes := st.writes + 1 }
  else Except.error (Abort.integrityError, st)

/-- The identity tuple of the pass-3 duplicate guard for a row whose
coordinates parsed to `s`, `e` under mode `m`. -/
def rowKey (cols : Columns) (row : Row) (s e : Int) (m : String) : SVKey :=
  (getStripped row cols.annotsv_id, getStripped row cols.sv_chrom, s, e, m)

/-- The new SV row a full-mode row inserts. -/
def rowSV (cols : Columns) (row : Row) (s e : Int) (m : String) : SVRow :=
  ⟨getStripped row cols.annotsv_id, getStripped row cols.sv_chrom, s, e,
    getStripped row cols.sv_type, m⟩

/-- Link the freshly inserted SV to the row's samples: the
`SELECT SV_id` re-query followed by the `sv_samples` insert loop. -/
def pass3_link (cols : Columns) (st : Pass3State) (row : Row) (m : String) :
    Except (Abort × Pass3State) Pass3State :=
  match findSVId st.db (getStripped row cols.annotsv_id) m with
  | none => Except.ok st
  | some sv_id =>
    (parse_multiple_samples (getStripped row cols.sample)).foldlM (insert_sv_sample sv_id) st

/-- The duplicate-guard check and the `INSERT OR IGNORE INTO SV` of a
full-mode row with parsed coordinates. -/
def pass3_insert (cols : Columns) (st : Pass3State) (row : Row) (s e : Int) (m : String) :
    Except (Abort × Pass3State) Pass3State :=
  if rowKey cols row s e m ∈ st.processed_sv then Except.ok st
  else
    pass3_link cols
      { st with
        db := { st.db with svs := st.db.svs ++ [rowSV cols row s e m] }
        processed_sv := st.processed_sv ++ [rowKey cols row s e m]
        imported_rows := st.imported_rows + 1
        writes := st.writes + 1 }
      row m

/-- The coordinate extraction (`try` block) of a full-mode row: a
`ValueError` on either coordinate skips the row. -/
def pass3_full (cols : Columns) (st : Pass3State) (row : Row) (m : String) :
    Except (Abort × Pass3State) Pass3State :=
  match svCoordOf cols.sv_start row, svCoordOf cols.sv_end row with
  | some s, some e => pass3_insert cols st row s e m
  | _, _ => Except.ok { st with skipped_rows := st.skipped_rows + 1 }

/-- The mode check and dispatch of one pass-3 row. -/
def pass3_checked (cols : Columns) (st : Pass3State) (row : Row) :
    Except (Abort × Pass3State) Pass3State :=
  match check_annotation_mode (rowModeRaw cols row) with
  | Except.error a => Except.error (a, st)
  | Except.ok m =>
    if m = "split" then Except.ok { st with split_count := st.split_count + 1 }
    else pass3_full cols { st with full_count := st.full_count + 1 } row m

/-- One row of the pass-3 loop.  An `error` result is a process
termination (`exit` on a bad annotation mode, or an uncaught
`IntegrityError`); it carries the in-memory state at the moment of
death. -/
def pass3_step (cols : Columns) (st : Pass3State) (row : Row) :
    Except (Abort × Pass3State) Pass3State :=
  pass3_checked cols { st with total_rows := st.total_rows + 1 } row

/-- Pass 3: the row loop. -/
def pass3 (cols : Columns) (rows : List Row) (db : DB) :
    Except (Abort × Pass3State) Pass3State :=
  rows.foldlM (pass3_step cols) (pass3_init db)

/-! ## Pass 4: SV–gene and SV–transcript relationships -/

/-- In-memory state of pass 4; `writes` counts the INSERT statements
executed directly by the pass-4 body (inserts performed inside the
get-or-create helpers belong to the same transaction and are not
separately traced). -/
structure Pass4State where
  db : DB
  gene_relationships : Nat
  tx_relationships : Nat
  transcript_count : Nat
  writes : Nat
deriving DecidableEq

/-- The eleven descriptive attributes of an `sv_tx` association, read
from the row. -/
def mkSvTxRow (cols : Columns) (row : Row) (sv_id tx_id : Nat) : SvTxRow where
  sv_id := sv_id
  tx_id := tx_id
  overlapped_tx_length := parse_numeric_value (rowGet row cols.overlapped_tx_length)
  overlapped_cds_length := parse_numeric_value (rowGet row cols.overlapped_cds_length)
  overlapped_cds_percent := parse_numeric_value (rowGet row cols.overlapped_cds_percent)
  frameshift :=
    match cols.frameshift with
    | some c => some (pyStrip (rowGet row (some c)))
    | none => none
  exon_count := parse_numeric_value (rowGet row cols.exon_count)
  loc :=
    match cols.loc with
    | some c => some (pyStrip (rowGet row (some c)))
    | none => none
  loc2 :=
    match cols.loc2 with
    | some c => some (pyStrip (rowGet row (some c)))
    | none => none
  dist_nearest_ss := parse_numeric_value (rowGet row cols.dist_nearest_ss)
  nearest_ss_type :=
    match cols.nearest_ss_type with
    | some c => some (pyStrip (rowGet row (some c)))
    | none => none
  intersect_start := parse_numeric_value (rowGet row cols.intersect_start)
  intersect_end := parse_numeric_value (rowGet row cols.intersect_end)

/-- After the transcript is resolved: look up the parent `full` SV and,
only if it exists, `INSERT OR IGNORE` the `sv_tx` association. -/
def pass4_tx_insert (cols : Columns) (st : Pass4State) (row : Row)
    (annotsv_id : String) (tx_id : Nat) : Pass4State :=
  match findSVId st.db annotsv_id "full" with
  | some sv_id =>
    { st with
      db :=
        if st.db.sv_tx.any (fun l => l.sv_id == sv_id && l.tx_id == tx_id) then st.db
        else { st.db with sv_tx := st.db.sv_tx ++ [mkSvTxRow cols row sv_id tx_id] }
      tx_relationships := st.tx_relationships + 1
      writes := st.writes + 1 }
  | none => st

/-- The transcript half of a pass-4 split row: resolve the transcript,
then look up the parent `full` SV, and only if it exists insert the
`sv_tx` association with its eleven attributes (a `ValueError` on the
transcript coordinates skips this half only). -/
def pass4_tx_part (cols : Columns) (st : Pass4State) (row : Row)
    (annotsv_id tx_name : String) (tx_version : Option String)
    (tx_start_str tx_end_str : String) : Pass4State :=
  if annotsv_id ≠ "" && tx_name ≠ "" && tx_start_str ≠ "" && tx_end_str ≠ "" then
    match pyInt tx_start_str, pyInt tx_end_str with
    | some tx_start, some tx_end =>
      pass4_tx_insert cols
        { st with
          db := (get_or_create_transcript st.db tx_name tx_version tx_start tx_end).1
          transcript_count := st.transcript_count + 1 }
        row annotsv_id
        (get_or_create_transcript st.db tx_name tx_version tx_start tx_end).2
    | _, _ => st
  else st

/-- `INSERT OR IGNORE INTO sv_genes` (primary key `(SV_id, gene_id)`). -/
def sv_gene_db (db : DB) (sv_id gene_id : Nat) : DB :=
  if (sv_id, gene_id) ∈ db.sv_genes then db
  else { db with sv_genes := db.sv_genes ++ [(sv_id, gene_id)] }

/-- The gene half of a pass-4 split row: look up the parent `full` SV,
and only if it exists resolve the gene and insert the `sv_genes`
association. -/
def pass4_gene_part (st : Pass4State) (annotsv_id gene_name : String) : Pass4State :=
  if annotsv_id ≠ "" && gene_name ≠ "" then
    match findSVId st.db annotsv_id "full" with
    | some sv_id =>
      { st with
        db := sv_gene_db (get_or_create_gene st.db gene_name).1 sv_id
          (get_or_create_gene st.db gene_name).2
        gene_relationships := st.gene_relationships + 1
        writes := st.writes + 1 }
    | none => st
  else st

/-- `row.get(Tx_version_column, '').strip() if Tx_version_column else
None`: SQL NULL only when the column is absent. -/
def rowTxVersion (cols : Columns) (row : Row) : Option String :=
  match cols.tx_version with
  | some c => some (pyStrip (rowGet row (some c)))
  | none => none

/-- One row of the pass-4 loop: only `split` rows are processed; the
transcript half runs first (its `ValueError` handler skips only that
half), the gene half runs regardless. -/
def pass4_step (cols : Columns) (st : Pass4State) (row : Row) : Pass4State :=
  if pyLower (pyStrip (rowGet row cols.annotation_mode)) = "split" then
    pass4_gene_part
      (pass4_tx_part cols st row (pyStrip (rowGet row cols.annotsv_id))
        (getStripped row cols.tx) (rowTxVersion cols row)
        (getStripped row cols.tx_start) (getStripped row cols.tx_end))
      (pyStrip (rowGet row cols.annotsv_id)) (pyStrip (rowGet row cols.gene))
  else st

/-- Pass 4: the row loop over the whole file again. -/
def pass4 (cols : Columns) (rows : List Row) (db : DB) : Pass4State :=
  rows.foldl (pass4_step cols) ⟨db, 0, 0, 0, 0⟩

/-! ## The four-pass import -/

/-- The informational counters of the final report. -/
structure ImportCounters where
  total_rows : Nat
  imported_rows : Nat
  skipped_rows : Nat
  full_count : Nat
  split_count : Nat
  gene_relationships : Nat
  tx_relationships : Nat
  transcript_count : Nat
deriving DecidableEq

/-- Events of the transaction trace: the start of each pass, each INSERT
statement executed, and each `conn.commit()`. -/
inductive Ev where
  | passStart (n : Nat)
  | write
  | commit
deriving DecidableEq

/-- Outcome and transaction trace of one `import_tsv` run. -/
structure ImportResult where
  outcome : Except Abort (DB × ImportCounters)
  trace : List Ev

/-- Store state after pass 1. -/
def dbAfterPass1 (file : InputFile) (db : DB) : DB :=
  (pass1 (detectColumns file.header) file.rows db).1

/-- Store state after pass 2. -/
def dbAfterPass2 (file : InputFile) (db : DB) : DB :=
  (pass2 (detectColumns file.header) file.rows (dbAfterPass1 file db)).1

/-- Trace of passes 1 and 2: each ends with its own `conn.commit()`. -/
def preTrace (file : InputFile) (db : DB) : List Ev :=
  [Ev.passStart 1]
    ++ List.replicate (pass1 (detectColumns file.header) file.rows db).2 Ev.write
    ++ [Ev.commit]
    ++ [Ev.passStart 2]
    ++ List.replicate
        (pass2 (detectColumns file.header) file.rows (dbAfterPass1 file db)).2 Ev.write
    ++ [Ev.commit]

/-- `import_tsv`: the four passes in sequence.  Passes 1 and 2 each
commit at their end; passes 3 and 4 share the single `conn.commit()`
that follows pass 4.  A pass-3 abort terminates the process: its
uncommitted transaction is rolled back and pass 4 never runs. -/
def import_tsv (file : InputFile) (db : DB) : ImportResult :=
  match pass3 (detectColumns file.header) file.rows (dbAfterPass2 file db) with
  | Except.error ap =>
    { outcome := Except.error ap.1
      trace := preTrace file db ++ [Ev.passStart 3] }
  | Except.ok st3 =>
    { outcome :=
        Except.ok ((pass4 (detectColumns file.header) file.rows st3.db).db,
          ⟨st3.total_rows, st3.imported_rows, st3.skipped_rows, st3.full_count,
            st3.split_count,
            (pass4 (detectColumns file.header) file.rows st3.db).gene_relationships,
            (pass4 (detectColumns file.header) file.rows st3.db).tx_relationships,
            (pass4 (detectColumns file.header) file.rows st3.db).transcript_count⟩)
      trace := preTrace file db ++ [Ev.passStart 3] ++ List.replicate st3.writes Ev.write
        ++ [Ev.passStart 4]
        ++ List.replicate (pass4 (detectColumns file.header) file.rows st3.db).writes Ev.write
        ++ [Ev.commit] }

/-- The final store of a successful run, `none` on an abort. -/
def importOk (file : InputFile) (db : DB) : Option DB :=
  match (import_tsv file db).outcome with
  | Except.ok p => some p.1
  | Except.error _ => none

/-! ## Derived observations used by the claims -/

/-- The identity tuple of a stored SV row. -/
def svKeyOf (sv : SVRow) : SVKey :=
  (sv.annotsv_id, sv.sv_chrom, sv.sv_start, sv.sv_end, sv.annotation_mode)

/-- The identity tuple a row would contribute in pass 3: `some` exactly
when the row passes the mode check as `full` and both coordinates
parse. -/
def rowFullKey (cols : Columns) (row : Row) : Option SVKey :=
  match check_annotation_mode (rowModeRaw cols row) with
  | Except.error _ => none
  | Except.ok m =>
    if m = "split" then none
    else
      match svCoordOf cols.sv_start row, svCoordOf cols.sv_end row with
      | some s, some e => some (rowKey cols row s e m)
      | _, _ => none

/-- The trace events strictly between `passStart 3` and `passStart 4`. -/
def pass3Segment (tr : List Ev) : List Ev :=
  ((tr.dropWhile (fun e => !(e == Ev.passStart 3))).drop 1).takeWhile
    (fun e => !(e == Ev.passStart 4))

/-- Number of `commit` events in a trace fragment. -/
def countCommits (l : List Ev) : Nat :=
  l.count Ev.commit

/-! ## Concrete inputs -/

/-- One `full` row with a sample: header `Annotation_mode`, `AnnotSV_ID`,
`Samples_ID`; row `full` / `SV1` / `S1`. -/
def exTwice : InputFile :=
  ⟨["Annotation_mode", "AnnotSV_ID", "Samples_ID"],
    [[("Annotation_mode", "full"), ("AnnotSV_ID", "SV1"), ("Samples_ID", "S1")]]⟩

/-- The store produced by importing `exTwice` into a fresh database. -/
def exTwiceDB : DB :=
  ⟨["S1"], [], [⟨"SV1", "", 0, 0, "", "full"⟩], [], [(1, "S1")], [], []⟩

/-- The counters of that run. -/
def exTwiceCounters : ImportCounters :=
  ⟨1, 1, 0, 1, 0, 0, 0, 0⟩

/-- A file whose only data row has the unrecognized annotation mode
`weird`. -/
def exBadMode : InputFile :=
  ⟨["Annotation_mode"], [[("Annotation_mode", "weird")]]⟩

/-- A file with a single `split` row whose AnnotSV id `SVY` has no
`full` row anywhere. -/
def exOrphanTx : InputFile :=
  ⟨["Annotation_mode", "AnnotSV_ID", "Tx", "Tx_start", "Tx_end"],
    [[("Annotation_mode", "split"), ("AnnotSV_ID", "SVY"), ("Tx", "NM_1"),
      ("Tx_start", "10"), ("Tx_end", "20")]]⟩

/-- A detached `split` row used for the pass-4 orphan-drop witness. -/
def exSplitRow : Row :=
  [("Annotation_mode", "split"), ("AnnotSV_ID", "SVX"), ("Gene_name", "G1")]

/-- Columns of a minimal header for the pass-4 witness. -/
def exSplitCols : Columns :=
  detectColumns ["Annotation_mode", "AnnotSV_ID", "Gene_name"]

/-- Columns of a header with SV coordinate columns, for the pass-3
coordinate-default witnesses. -/
def exCoordCols : Columns :=
  detectColumns ["Annotation_mode", "AnnotSV_ID", "SV_start", "SV_end"]

/-- A `full` row whose `SV_start` field is empty. -/
def exEmptyStartRow : Row :=
  [("Annotation_mode", "full"), ("AnnotSV_ID", "SV2"), ("SV_start", ""), ("SV_end", "200")]

/-- A `full` row whose `SV_start` field is non-numeric. -/
def exBadStartRow : Row :=
  [("Annotation_mode", "full"), ("AnnotSV_ID", "SV3"), ("SV_start", "abc"), ("SV_end", "200")]

/-- A `full` row whose `SV_end` field is empty. -/
def exEmptyEndRow : Row :=
  [("Annotation_mode", "full"), ("AnnotSV_ID", "SV4"), ("SV_start", "100"), ("SV_end", "")]

/-- A `full` row whose `SV_end` field is non-numeric. -/
def exBadEndRow : Row :=
  [("Annotation_mode", "full"), ("AnnotSV_ID", "SV5"), ("SV_start", "100"), ("SV_end", "xyz")]

/-- A store that already contains the placeholder sample `NA`. -/
def dbWithNA : DB :=
  ⟨["NA"], [], [], [], [], [], []⟩

/-! ## General lemmas about the set-like insertions and monadic folds -/

theorem mem_insertNew {α : Type} [DecidableEq α] {l : List α} {x y : α} :
    y ∈ insertNew l x ↔ y ∈ l ∨ y = x := by
  unfold insertNew
  by_cases h : x ∈ l
  · simp only [if_pos h]
    exact ⟨Or.inl, fun h' => h'.elim id (fun hy => hy ▸ h)⟩
  · simp [if_neg h]

theorem mem_foldl_insertNew {α : Type} [DecidableEq α] (l : List α) :
    ∀ (acc : List α) (y : α), y ∈ l.foldl insertNew acc ↔ y ∈ acc ∨ y ∈ l := by
  induction l with
  | nil => simp
  | cons a t ih =>
    intro acc y
    simp only [List.foldl_cons, ih, mem_insertNew, List.mem_cons]
    tauto

theorem foldlM_except_induct {α β ε : Type} (P : β → Prop) (f : β → α → Except ε β)
    (hf : ∀ b a b', f b a = Except.ok b' → P b → P b') :
    ∀ (l : List α) (b b' : β), List.foldlM f b l = Except.ok b' → P b → P b' := by
  intro l
  induction l with
  | nil =>
    intro b b' h hb
    simp only [List.foldlM_nil, pure, Except.pure, Except.ok.injEq] at h
    exact h ▸ hb
  | cons a t ih =>
    intro b b' h hb
    rw [List.foldlM_cons] at h
    cases hfa : f b a with
    | error e => rw [hfa] at h; simp [Bind.bind, Except.bind] at h
    | ok bm =>
      rw [hfa] at h
      simp only [Bind.bind, Except.bind] at h
      exact ih bm b' h (hf b a bm hfa hb)

theorem foldlM_except_append {α β ε : Type} (f : β → α → Except ε β) (l₁ l₂ : List α)
    (b : β) :
    List.foldlM f b (l₁ ++ l₂) =
      match List.foldlM f b l₁ with
      | Except.ok bm => List.foldlM f bm l₂
      | Except.error e => Except.error e := by
  induction l₁ generalizing b with
  | nil => simp [List.foldlM_nil, pure, Except.pure]
  | cons a t ih =>
    simp only [List.cons_append, List.foldlM_cons]
    cases hfa : f b a with
    | error e => simp [Bind.bind, Except.bind]
    | ok bm => simp only [Bind.bind, Except.bind, ih]

/-! ## C8: sample-list parsing -/

/-- C8: `parse_multiple_samples` (split on commas, trim each token, map
empty tokens to `"NA"`) never produces an empty token, and an all-empty
or absent sample field — the empty string, which is what callers pass in
both cases — yields exactly the one-element list `["NA"]`. -/
theorem C8_sample_parsing :
    (∀ s : String, "" ∉ parse_multiple_samples s) ∧ parse_multiple_samples "" = ["NA"] := by
  constructor
  · intro s h
    simp only [parse_multiple_samples] at h
    split at h
    · simp at h
    · have h2 := (List.mem_filter.mp h).2
      simp at h2
  · rfl

/-! ## Pass-1 membership lemmas and C2 -/

theorem mem_pass1_collect (c : String) (rows : List Row) :
    ∀ (acc : List String) (y : String),
      y ∈ rows.foldl
          (fun acc row =>
            (parse_multiple_samples (pyStrip (rowGet row (some c)))).foldl insertNew acc)
          acc ↔
        y ∈ acc ∨ ∃ r, r ∈ rows ∧ y ∈ parse_multiple_samples (pyStrip (rowGet r (some c))) := by
  induction rows with
  | nil => simp
  | cons r t ih =>
    intro acc y
    simp only [List.foldl_cons, ih, mem_foldl_insertNew, List.mem_cons]
    constructor
    · rintro ((h | h) | ⟨a, ha, hy⟩)
      · exact Or.inl h
      · exact Or.inr ⟨r, Or.inl rfl, h⟩
      · exact Or.inr ⟨a, Or.inr ha, hy⟩
    · rintro (h | ⟨a, rfl | ha, hy⟩)
      · exact Or.inl (Or.inl h)
      · exact Or.inl (Or.inr hy)
      · exact Or.inr ⟨a, ha, hy⟩

theorem mem_pass1_all_samples (sampleCol : Option String) (rows : List Row) (y : String) :
    y ∈ pass1_all_samples sampleCol rows ↔
      ∃ c, sampleCol = some c ∧
        ∃ r, r ∈ rows ∧ y ∈ parse_multiple_samples (pyStrip (rowGet r (some c))) := by
  cases sampleCol with
  | none => simp [pass1_all_samples]
  | some c =>
    unfold pass1_all_samples
    rw [mem_pass1_collect]
    simp

theorem mem_pass1_samples (file : InputFile) (db : DB) (y : String) :
    y ∈ (pass1 (detectColumns file.header) file.rows db).1.samples ↔
      y ∈ db.samples ∨ y ∈ pass1_all_samples (findCol file.header "Samples_ID") file.rows := by
  unfold pass1
  exact mem_foldl_insertNew _ _ _

/-- C2 counterexample: `exTwice` has one data row whose sample field is
the non-empty list `S1` (no `NA` token), the `Samples_ID` column is
present, yet after pass 1 the placeholder `NA` is absent from the
`samples` table — refuting the claim that `NA` is always present after
pass 1 whenever the file has at least one data row. -/
theorem C2_counterexample :
    exTwice.rows.length = 1 ∧
    (∀ r ∈ exTwice.rows,
      pyStrip (rowGet r (findCol exTwice.header "Samples_ID")) ≠ "" ∧
        "NA" ∉ parse_multiple_samples (pyStrip (rowGet r (findCol exTwice.header "Samples_ID")))) ∧
    "NA" ∉ (pass1 (detectColumns exTwice.header) exTwice.rows emptyDB).1.samples := by
  decide

/-- C2 amended: after pass 1 the placeholder `NA` is present in the
samples table iff it was already in the store, or the `Samples_ID`
column is present in the header and some row's sample field contributes
an `NA` token (absent or empty field, or an empty token).  In
particular, when every row has a wholly non-empty sample list, or when
the `Samples_ID` column is absent from the header (pass 1 then collects
nothing at all), `NA` is not inserted. -/
theorem C2_na_after_pass1 (file : InputFile) (db : DB) :
    "NA" ∈ (pass1 (detectColumns file.header) file.rows db).1.samples ↔
      "NA" ∈ db.samples ∨
        ∃ c, findCol file.header "Samples_ID" = some c ∧
          ∃ r, r ∈ file.rows ∧
            "NA" ∈ parse_multiple_samples (pyStrip (rowGet r (some c))) := by
  rw [mem_pass1_samples, mem_pass1_all_samples]

/-! ## C1: re-running the import duplicates SV rows -/

/-- C1: importing the same single-`full`-row file twice into the same
store leaves one SV row after the first run but two identical SV rows
after the second run — the `SV` table has no uniqueness constraint on
its natural key, so the in-file guard `processed_sv` (reset between
runs) is the only deduplication and `INSERT OR IGNORE` never ignores.
This refutes cross-run idempotence for the SV entity count. -/
theorem C1_second_run_duplicates_sv :
    ((importOk exTwice emptyDB).map (fun d => d.svs.length) = some 1) ∧
    (((importOk exTwice emptyDB).bind (importOk exTwice)).map (fun d => d.svs.length) = some 2) ∧
    (((importOk exTwice emptyDB).bind (importOk exTwice)).map (fun d => d.svs) =
      some [⟨"SV1", "", 0, 0, "", "full"⟩, ⟨"SV1", "", 0, 0, "", "full"⟩]) := by
  decide

/-! ## C10: a split row with no parent SV still creates its transcript -/

/-- C10: importing a file whose only data row is a `split` row with a
valid transcript and an AnnotSV id (`SVY`) that has no `full` SV row
leaves a Transcript row in the store while `sv_tx` (and the `SV` table
itself) stay empty: `get_or_create_transcript` runs before the SV
lookup, so orphan transcripts can exist. -/
theorem C10_orphan_transcript_created :
    (importOk exOrphanTx emptyDB).map (fun d => (d.txs, d.sv_tx, d.svs)) =
      some ([⟨"NM_1", none, 10, 20⟩], [], []) := by
  decide

/-! ## C3: transaction boundaries -/

/-- C3 counterexample: on the run importing `exTwice` into a fresh
store, pass 3 executes INSERT statements (a `write` event lies strictly
between `passStart 3` and `passStart 4`) yet not a single `commit`
occurs in that span — so pass 3's writes are not committed in a
transaction of their own before pass 4 begins, and pass 3 does not
commit exactly one transaction at its end. -/
theorem C3_counterexample :
    Ev.write ∈ pass3Segment (import_tsv exTwice emptyDB).trace ∧
    countCommits (pass3Segment (import_tsv exTwice emptyDB).trace) = 0 ∧
    ¬ countCommits (pass3Segment (import_tsv exTwice emptyDB).trace) = 1 := by
  decide

/-- C3 amended: on every completed run, passes 1 and 2 each end with
their own commit, while the writes of passes 3 and 4 are committed
together by the single commit that follows pass 4; no commit separates
pass 3 from pass 4 (pass 4 reads pass 3's uncommitted writes over the
same connection). -/
theorem C3_commit_layout (file : InputFile) (db : DB) (d : DB) (c : ImportCounters)
    (h : (import_tsv file db).outcome = Except.ok (d, c)) :
    ∃ n1 n2 n3 n4 : Nat,
      (import_tsv file db).trace =
        [Ev.passStart 1] ++ List.replicate n1 Ev.write ++ [Ev.commit]
          ++ [Ev.passStart 2] ++ List.replicate n2 Ev.write ++ [Ev.commit]
          ++ [Ev.passStart 3] ++ List.replicate n3 Ev.write
          ++ [Ev.passStart 4] ++ List.replicate n4 Ev.write ++ [Ev.commit] := by
  cases hp : pass3 (detectColumns file.header) file.rows (dbAfterPass2 file db) with
  | error ap =>
    unfold import_tsv at h
    rw [hp] at h
    simp at h
  | ok st3 =>
    refine ⟨(pass1 (detectColumns file.header) file.rows db).2,
      (pass2 (detectColumns file.header) file.rows (dbAfterPass1 file db)).2,
      st3.writes, (pass4 (detectColumns file.header) file.rows st3.db).writes, ?_⟩
    unfold import_tsv
    rw [hp]
    simp [preTrace, List.append_assoc]

/-- Witness for `C3_commit_layout` at the concrete run on `exTwice`. -/
theorem C3_commit_layout_witness :
    (import_tsv exTwice emptyDB).outcome = Except.ok (exTwiceDB, exTwiceCounters) ∧
    (∃ n1 n2 n3 n4 : Nat,
      (import_tsv exTwice emptyDB).trace =
        [Ev.passStart 1] ++ List.replicate n1 Ev.write ++ [Ev.commit]
          ++ [Ev.passStart 2] ++ List.replicate n2 Ev.write ++ [Ev.commit]
          ++ [Ev.passStart 3] ++ List.replicate n3 Ev.write
          ++ [Ev.passStart 4] ++ List.replicate n4 Ev.write ++ [Ev.commit]) :=
  ⟨rfl, C3_commit_layout exTwice emptyDB exTwiceDB exTwiceCounters rfl⟩

/-! ## C5: split rows without a parent SV contribute no link -/

theorem goc_gene_frame (db : DB) (n : String) :
    (get_or_create_gene db n).1.svs = db.svs ∧
    (get_or_create_gene db n).1.samples = db.samples ∧
    (get_or_create_gene db n).1.txs = db.txs ∧
    (get_or_create_gene db n).1.sv_samples = db.sv_samples ∧
    (get_or_create_gene db n).1.sv_genes = db.sv_genes ∧
    (get_or_create_gene db n).1.sv_tx = db.sv_tx := by
  unfold get_or_create_gene
  split <;> simp

theorem goc_transcript_frame (db : DB) (n : String) (v : Option String) (s e : Int) :
    (get_or_create_transcript db n v s e).1.svs = db.svs ∧
    (get_or_create_transcript db n v s e).1.samples = db.samples ∧
    (get_or_create_transcript db n v s e).1.genes = db.genes ∧
    (get_or_create_transcript db n v s e).1.sv_samples = db.sv_samples ∧
    (get_or_create_transcript db n v s e).1.sv_genes = db.sv_genes ∧
    (get_or_create_transcript db n v s e).1.sv_tx = db.sv_tx := by
  unfold get_or_create_transcript
  split <;> simp

theorem findSVId_eq_of_svs_eq {db1 db2 : DB} (h : db1.svs = db2.svs) (a m : String) :
    findSVId db1 a m = findSVId db2 a m := by
  unfold findSVId
  rw [h]

theorem pass4_tx_insert_orphan (cols : Columns) (st : Pass4State) (row : Row)
    (aid : String) (tx_id : Nat) (hnosv : findSVId st.db aid "full" = none) :
    pass4_tx_insert cols st row aid tx_id = st := by
  unfold pass4_tx_insert
  rw [hnosv]

theorem pass4_tx_part_orphan (cols : Columns) (st : Pass4State) (row : Row)
    (aid nm : String) (v : Option String) (s1 s2 : String)
    (hnosv : findSVId st.db aid "full" = none) :
    (pass4_tx_part cols st row aid nm v s1 s2).db.svs = st.db.svs ∧
    (pass4_tx_part cols st row aid nm v s1 s2).db.sv_genes = st.db.sv_genes ∧
    (pass4_tx_part cols st row aid nm v s1 s2).db.sv_tx = st.db.sv_tx := by
  unfold pass4_tx_part
  split
  · split
    · rename_i o1 o2 ts te h1 h2
      have hfr := goc_transcript_frame st.db nm v ts te
      rw [pass4_tx_insert_orphan _ _ _ _ _
        ((findSVId_eq_of_svs_eq hfr.1 aid "full").trans hnosv)]
      exact ⟨hfr.1, hfr.2.2.2.2.1, hfr.2.2.2.2.2⟩
    · exact ⟨rfl, rfl, rfl⟩
  · exact ⟨rfl, rfl, rfl⟩

theorem pass4_gene_part_orphan (st : Pass4State) (aid g : String)
    (hnosv : findSVId st.db aid "full" = none) :
    (pass4_gene_part st aid g).db = st.db := by
  unfold pass4_gene_part
  split
  · rw [hnosv]
  · rfl

/-- C5: in pass 4, a `split`-mode row whose AnnotSV id has no
corresponding `full`-mode SV row in the store contributes no SV–Gene
link and no SV–Transcript link: the association is silently dropped, so
no link referencing a missing SV is ever inserted on behalf of that
row. -/
theorem C5_orphan_split_drops_links (cols : Columns) (st : Pass4State) (row : Row)
    (hsplit : pyLower (pyStrip (rowGet row cols.annotation_mode)) = "split")
    (hnosv : findSVId st.db (pyStrip (rowGet row cols.annotsv_id)) "full" = none) :
    (pass4_step cols st row).db.sv_genes = st.db.sv_genes ∧
    (pass4_step cols st row).db.sv_tx = st.db.sv_tx := by
  unfold pass4_step
  rw [hsplit]
  have htx := pass4_tx_part_orphan cols st row (pyStrip (rowGet row cols.annotsv_id))
    (getStripped row cols.tx) (rowTxVersion cols row)
    (getStripped row cols.tx_start) (getStripped row cols.tx_end) hnosv
  have hg := pass4_gene_part_orphan
    (pass4_tx_part cols st row (pyStrip (rowGet row cols.annotsv_id))
      (getStripped row cols.tx) (rowTxVersion cols row)
      (getStripped row cols.tx_start) (getStripped row cols.tx_end))
    (pyStrip (rowGet row cols.annotsv_id)) (pyStrip (rowGet row cols.gene))
    ((findSVId_eq_of_svs_eq htx.1 (pyStrip (rowGet row cols.annotsv_id)) "full").trans hnosv)
  split
  · rw [hg]
    exact ⟨htx.2.1, htx.2.2⟩
  · exact ⟨rfl, rfl⟩

/-- Witness for `C5_orphan_split_drops_links`: a concrete split row
whose AnnotSV id `SVX` is absent from an empty store. -/
theorem C5_orphan_split_witness :
    pyLower (pyStrip (rowGet exSplitRow exSplitCols.annotation_mode)) = "split" ∧
    findSVId emptyDB (pyStrip (rowGet exSplitRow exSplitCols.annotsv_id)) "full" = none ∧
    (pass4_step exSplitCols ⟨emptyDB, 0, 0, 0, 0⟩ exSplitRow).db.sv_genes =
      (emptyDB : DB).sv_genes ∧
    (pass4_step exSplitCols ⟨emptyDB, 0, 0, 0, 0⟩ exSplitRow).db.sv_tx =
      (emptyDB : DB).sv_tx :=
  ⟨by decide, by decide,
    (C5_orphan_split_drops_links exSplitCols ⟨emptyDB, 0, 0, 0, 0⟩ exSplitRow
      (by decide) (by decide)).1,
    (C5_orphan_split_drops_links exSplitCols ⟨emptyDB, 0, 0, 0, 0⟩ exSplitRow
      (by decide) (by decide)).2⟩

/-! ## C9: coordinate defaulting and row skipping in pass 3 -/

theorem findIdx?_isSome_of_mem {α : Type} (p : α → Bool) (x : α) :
    ∀ (l : List α) (i : Nat), x ∈ l → p x = true → ∃ k, l.findIdx? p i = some k := by
  intro l
  induction l with
  | nil => simp
  | cons a t ih =>
    intro i hx hp
    rw [List.findIdx?_cons]
    by_cases hpa : p a = true
    · exact ⟨i, by rw [if_pos hpa]⟩
    · rcases List.mem_cons.mp hx with rfl | hx
      · exact absurd hp hpa
      · rw [if_neg hpa]
        exact ih (i + 1) hx hp

theorem svCoordOf_empty (c : Option String) (row : Row)
    (h : getStripped row c = "") : svCoordOf c row = some 0 := by
  cases c with
  | none => rfl
  | some col =>
    have h' : pyStrip (rowGet row (some col)) = "" := h
    simp [svCoordOf, h']

theorem svCoordOf_fail (c : Option String) (row : Row)
    (hne : getStripped row c ≠ "") (hp : pyInt (getStripped row c) = none) :
    svCoordOf c row = none := by
  cases c with
  | none => exact absurd rfl hne
  | some col =>
    have h1 : ¬ pyStrip (rowGet row (some col)) = "" := hne
    have h2 : pyInt (pyStrip (rowGet row (some col))) = none := hp
    simp [svCoordOf, h1, h2]

theorem pass3_checked_err (cols : Columns) (st : Pass3State) (row : Row) (a : Abort)
    (h : check_annotation_mode (rowModeRaw cols row) = Except.error a) :
    pass3_checked cols st row = Except.error (a, st) := by
  unfold pass3_checked
  rw [h]

theorem pass3_checked_split (cols : Columns) (st : Pass3State) (row : Row)
    (h : check_annotation_mode (rowModeRaw cols row) = Except.ok "split") :
    pass3_checked cols st row = Except.ok { st with split_count := st.split_count + 1 } := by
  unfold pass3_checked
  rw [h]
  rfl

theorem pass3_checked_full (cols : Columns) (st : Pass3State) (row : Row)
    (h : check_annotation_mode (rowModeRaw cols row) = Except.ok "full") :
    pass3_checked cols st row =
      pass3_full cols { st with full_count := st.full_count + 1 } row "full" := by
  unfold pass3_checked
  rw [h]
  rfl

theorem pass3_full_eq (cols : Columns) (st : Pass3State) (row : Row) (m : String)
    (s e : Int) (h1 : svCoordOf cols.sv_start row = some s)
    (h2 : svCoordOf cols.sv_end row = some e) :
    pass3_full cols st row m = pass3_insert cols st row s e m := by
  unfold pass3_full
  rw [h1, h2]

theorem pass3_full_skipL (cols : Columns) (st : Pass3State) (row : Row) (m : String)
    (h1 : svCoordOf cols.sv_start row = none) :
    pass3_full cols st row m = Except.ok { st with skipped_rows := st.skipped_rows + 1 } := by
  unfold pass3_full
  rw [h1]

theorem pass3_full_skipR (cols : Columns) (st : Pass3State) (row : Row) (m : String)
    (s : Int) (h1 : svCoordOf cols.sv_start row = some s)
    (h2 : svCoordOf cols.sv_end row = none) :
    pass3_full cols st row m = Except.ok { st with skipped_rows := st.skipped_rows + 1 } := by
  unfold pass3_full
  rw [h1, h2]

theorem pass3_insert_dup (cols : Columns) (st : Pass3State) (row : Row) (s e : Int)
    (m : String) (h : rowKey cols row s e m ∈ st.processed_sv) :
    pass3_insert cols st row s e m = Except.ok st := by
  unfold pass3_insert
  rw [if_pos h]

theorem pass3_insert_fresh (cols : Columns) (st : Pass3State) (row : Row) (s e : Int)
    (m : String) (h : rowKey cols row s e m ∉ st.processed_sv) :
    pass3_insert cols st row s e m =
      pass3_link cols
        { st with
          db := { st.db with svs := st.db.svs ++ [rowSV cols row s e m] }
          processed_sv := st.processed_sv ++ [rowKey cols row s e m]
          imported_rows := st.imported_rows + 1
          writes := st.writes + 1 }
        row m := by
  unfold pass3_insert
  rw [if_neg h]

theorem pass3_samples_fold_ok (sv_id : Nat) (names : List String) :
    ∀ st : Pass3State, (∀ s ∈ names, s ∈ st.db.samples) →
      ∃ st', names.foldlM (insert_sv_sample sv_id) st = Except.ok st' ∧
        st'.db.samples = st.db.samples ∧ st'.db.genes = st.db.genes ∧
        st'.db.svs = st.db.svs ∧ st'.db.txs = st.db.txs ∧
        st'.db.sv_genes = st.db.sv_genes ∧ st'.db.sv_tx = st.db.sv_tx ∧
        st'.total_rows = st.total_rows ∧ st'.imported_rows = st.imported_rows ∧
        st'.skipped_rows = st.skipped_rows ∧ st'.full_count = st.full_count ∧
        st'.split_count = st.split_count ∧ st'.processed_sv = st.processed_sv := by
  induction names with
  | nil =>
    intro st h
    exact ⟨st, by simp [List.foldlM_nil, pure, Except.pure], rfl, rfl, rfl, rfl, rfl, rfl,
      rfl, rfl, rfl, rfl, rfl, rfl⟩
  | cons a t ih =>
    intro st h
    have ha : a ∈ st.db.samples := h a (List.mem_cons_self a t)
    have hone : ∃ st1, insert_sv_sample sv_id st a = Except.ok st1 ∧
        st1.db.samples = st.db.samples ∧ st1.db.genes = st.db.genes ∧
        st1.db.svs = st.db.svs ∧ st1.db.txs = st.db.txs ∧
        st1.db.sv_genes = st.db.sv_genes ∧ st1.db.sv_tx = st.db.sv_tx ∧
        st1.total_rows = st.total_rows ∧ st1.imported_rows = st.imported_rows ∧
        st1.skipped_rows = st.skipped_rows ∧ st1.full_count = st.full_count ∧
        st1.split_count = st.split_count ∧ st1.processed_sv = st.processed_sv := by
      by_cases hdup : (sv_id, a) ∈ st.db.sv_samples
      · exact ⟨{ st with writes := st.writes + 1 },
          by unfold insert_sv_sample; rw [if_pos hdup], rfl, rfl, rfl, rfl, rfl, rfl, rfl,
          rfl, rfl, rfl, rfl, rfl⟩
      · exact ⟨{ st with
            db := { st.db with sv_samples := st.db.sv_samples ++ [(sv_id, a)] }
            writes := st.writes + 1 },
          by unfold insert_sv_sample; rw [if_neg hdup, if_pos ha], rfl, rfl, rfl, rfl, rfl,
          rfl, rfl, rfl, rfl, rfl, rfl, rfl⟩
    rcases hone with ⟨st1, hs1, f1, f2, f3, f4, f5, f6, f7, f8, f9, f10, f11, f12⟩
    rw [List.foldlM_cons, hs1]
    have hsub : ∀ s ∈ t, s ∈ st1.db.samples := by
      intro s hs
      rw [f1]
      exact h s (List.mem_cons_of_mem a hs)
    rcases ih st1 hsub with ⟨st', hfold, g1, g2, g3, g4, g5, g6, g7, g8, g9, g10, g11, g12⟩
    refine ⟨st', ?_, g1.trans f1, g2.trans f2, g3.trans f3, g4.trans f4, g5.trans f5,
      g6.trans f6, g7.trans f7, g8.trans f8, g9.trans f9, g10.trans f10, g11.trans f11,
      g12.trans f12⟩
    simpa [Bind.bind, Except.bind] using hfold

theorem pass3_step_imports (cols : Columns) (st : Pass3State) (row : Row) (s e : Int)
    (hmode : check_annotation_mode (rowModeRaw cols row) = Except.ok "full")
    (h1 : svCoordOf cols.sv_start row = some s)
    (h2 : svCoordOf cols.sv_end row = some e)
    (hfresh : rowKey cols row s e "full" ∉ st.processed_sv)
    (hfk : ∀ x ∈ parse_multiple_samples (getStripped row cols.sample), x ∈ st.db.samples) :
    ∃ st', pass3_step cols st row = Except.ok st' ∧
      st'.db.svs = st.db.svs ++ [rowSV cols row s e "full"] ∧
      st'.skipped_rows = st.skipped_rows := by
  have hA : pass3_step cols st row =
      pass3_full cols
        { st with total_rows := st.total_rows + 1, full_count := st.full_count + 1 }
        row "full" :=
    pass3_checked_full cols { st with total_rows := st.total_rows + 1 } row hmode
  have hB : pass3_full cols
      { st with total_rows := st.total_rows + 1, full_count := st.full_count + 1 }
      row "full" =
      pass3_insert cols
        { st with total_rows := st.total_rows + 1, full_count := st.full_count + 1 }
        row s e "full" :=
    pass3_full_eq cols _ row "full" s e h1 h2
  have hC : pass3_insert cols
      { st with total_rows := st.total_rows + 1, full_count := st.full_count + 1 }
      row s e "full" =
      pass3_link cols
        { st with
          db := { st.db with svs := st.db.svs ++ [rowSV cols row s e "full"] }
          total_rows := st.total_rows + 1
          full_count := st.full_count + 1
          processed_sv := st.processed_sv ++ [rowKey cols row s e "full"]
          imported_rows := st.imported_rows + 1
          writes := st.writes + 1 }
        row "full" :=
    pass3_insert_fresh cols
      { st with total_rows := st.total_rows + 1, full_count := st.full_count + 1 }
      row s e "full" hfresh
  have hmem : rowSV cols row s e "full" ∈ st.db.svs ++ [rowSV cols row s e "full"] :=
    List.mem_append_right _ (List.mem_singleton.mpr rfl)
  rcases findIdx?_isSome_of_mem
      (fun sv => sv.annotsv_id == getStripped row cols.annotsv_id &&
        sv.annotation_mode == "full")
      (rowSV cols row s e "full") (st.db.svs ++ [rowSV cols row s e "full"]) 0 hmem
      (by simp [rowSV]) with ⟨k, hk⟩
  have hD : pass3_link cols
      { st with
        db := { st.db with svs := st.db.svs ++ [rowSV cols row s e "full"] }
        total_rows := st.total_rows + 1
        full_count := st.full_count + 1
        processed_sv := st.processed_sv ++ [rowKey cols row s e "full"]
        imported_rows := st.imported_rows + 1
        writes := st.writes + 1 }
      row "full" =
      (parse_multiple_samples (getStripped row cols.sample)).foldlM
        (insert_sv_sample (k + 1))
        { st with
          db := { st.db with svs := st.db.svs ++ [rowSV cols row s e "full"] }
          total_rows := st.total_rows + 1
          full_count := st.full_count + 1
          processed_sv := st.processed_sv ++ [rowKey cols row s e "full"]
          imported_rows := st.imported_rows + 1
          writes := st.writes + 1 } := by
    unfold pass3_link
    have hfind : findSVId
        { st.db with svs := st.db.svs ++ [rowSV cols row s e "full"] }
        (getStripped row cols.annotsv_id) "full" = some (k + 1) := by
      show ((st.db.svs ++ [rowSV cols row s e "full"]).findIdx?
        (fun sv => sv.annotsv_id == getStripped row cols.annotsv_id &&
          sv.annotation_mode == "full") 0).map (· + 1) = some (k + 1)
      rw [hk]
      rfl
    rw [hfind]
  rcases pass3_samples_fold_ok (k + 1) (parse_multiple_samples (getStripped row cols.sample))
      { st with
        db := { st.db with svs := st.db.svs ++ [rowSV cols row s e "full"] }
        total_rows := st.total_rows + 1
        full_count := st.full_count + 1
        processed_sv := st.processed_sv ++ [rowKey cols row s e "full"]
        imported_rows := st.imported_rows + 1
        writes := st.writes + 1 }
      (by intro x hx; exact hfk x hx) with
    ⟨st', hfold, g1, g2, g3, g4, g5, g6, g7, g8, g9, g10, g11, g12⟩
  exact ⟨st', (((hA.trans hB).trans hC).trans hD).trans hfold, g3, g9⟩

/-- C9: in pass 3, for a full-mode row (one whose normalized annotation
mode passes the check as `full`), symmetrically in the two coordinate
fields: (a) if the `SV_start` field is absent or empty, the start
coordinate defaults to `0` and — provided the row's identity tuple is
new and its samples satisfy the foreign key — the row is still
imported, appending its SV row with `SV_start = 0` and leaving the
skipped counter untouched; (b) likewise an absent or empty `SV_end`
field defaults the end coordinate to `0` and the row is still imported;
(c) if the `SV_start` field is non-empty but fails integer parsing, the
row loop continues with an `ok` state whose only changes are the row
counters, the skipped-rows counter included: the store is untouched and
the run is not aborted; (d) likewise a non-empty `SV_end` field that
fails integer parsing (with `SV_start` parsed or defaulted) skips the
row, counts it, and continues. -/
theorem C9_coordinate_defaults :
    (∀ (cols : Columns) (st : Pass3State) (row : Row) (e : Int),
      check_annotation_mode (rowModeRaw cols row) = Except.ok "full" →
      getStripped row cols.sv_start = "" →
      svCoordOf cols.sv_end row = some e →
      rowKey cols row 0 e "full" ∉ st.processed_sv →
      (∀ s ∈ parse_multiple_samples (getStripped row cols.sample), s ∈ st.db.samples) →
      ∃ st', pass3_step cols st row = Except.ok st' ∧
        st'.db.svs = st.db.svs ++ [rowSV cols row 0 e "full"] ∧
        st'.skipped_rows = st.skipped_rows) ∧
    (∀ (cols : Columns) (st : Pass3State) (row : Row) (s : Int),
      check_annotation_mode (rowModeRaw cols row) = Except.ok "full" →
      svCoordOf cols.sv_start row = some s →
      getStripped row cols.sv_end = "" →
      rowKey cols row s 0 "full" ∉ st.processed_sv →
      (∀ x ∈ parse_multiple_samples (getStripped row cols.sample), x ∈ st.db.samples) →
      ∃ st', pass3_step cols st row = Except.ok st' ∧
        st'.db.svs = st.db.svs ++ [rowSV cols row s 0 "full"] ∧
        st'.skipped_rows = st.skipped_rows) ∧
    (∀ (cols : Columns) (st : Pass3State) (row : Row),
      check_annotation_mode (rowModeRaw cols row) = Except.ok "full" →
      getStripped row cols.sv_start ≠ "" →
      pyInt (getStripped row cols.sv_start) = none →
      pass3_step cols st row = Except.ok
        { st with
          total_rows := st.total_rows + 1
          full_count := st.full_count + 1
          skipped_rows := st.skipped_rows + 1 }) ∧
    (∀ (cols : Columns) (st : Pass3State) (row : Row) (s : Int),
      check_annotation_mode (rowModeRaw cols row) = Except.ok "full" →
      svCoordOf cols.sv_start row = some s →
      getStripped row cols.sv_end ≠ "" →
      pyInt (getStripped row cols.sv_end) = none →
      pass3_step cols st row = Except.ok
        { st with
          total_rows := st.total_rows + 1
          full_count := st.full_count + 1
          skipped_rows := st.skipped_rows + 1 }) := by
  refine ⟨?_, ?_, ?_, ?_⟩
  · intro cols st row e hmode hstart hend hfresh hfk
    exact pass3_step_imports cols st row 0 e hmode
      (svCoordOf_empty cols.sv_start row hstart) hend hfresh hfk
  · intro cols st row s hmode hstart hend hfresh hfk
    exact pass3_step_imports cols st row s 0 hmode hstart
      (svCoordOf_empty cols.sv_end row hend) hfresh hfk
  · intro cols st row hmode hne hfail
    have hA : pass3_step cols st row =
        pass3_full cols
          { st with total_rows := st.total_rows + 1, full_count := st.full_count + 1 }
          row "full" :=
      pass3_checked_full cols { st with total_rows := st.total_rows + 1 } row hmode
    exact hA.trans
      (pass3_full_skipL cols
        { st with total_rows := st.total_rows + 1, full_count := st.full_count + 1 }
        row "full" (svCoordOf_fail cols.sv_start row hne hfail))
  · intro cols st row s hmode hstart hne hfail
    have hA : pass3_step cols st row =
        pass3_full cols
          { st with total_rows := st.total_rows + 1, full_count := st.full_count + 1 }
          row "full" :=
      pass3_checked_full cols { st with total_rows := st.total_rows + 1 } row hmode
    exact hA.trans
      (pass3_full_skipR cols
        { st with total_rows := st.total_rows + 1, full_count := st.full_count + 1 }
        row "full" s hstart (svCoordOf_fail cols.sv_end row hne hfail))

/-- Witness for `C9_coordinate_defaults` on concrete rows: an empty
`SV_start` field imports the row with start `0`; an empty `SV_end`
field imports the row with end `0`; the non-numeric `SV_start` value
`abc` and the non-numeric `SV_end` value `xyz` each skip their row and
continue. -/
theorem C9_coordinate_defaults_witness :
    (∃ st', pass3_step exCoordCols (pass3_init dbWithNA) exEmptyStartRow = Except.ok st' ∧
      st'.db.svs =
        (pass3_init dbWithNA).db.svs ++ [rowSV exCoordCols exEmptyStartRow 0 200 "full"] ∧
      st'.skipped_rows = (pass3_init dbWithNA).skipped_rows) ∧
    (∃ st', pass3_step exCoordCols (pass3_init dbWithNA) exEmptyEndRow = Except.ok st' ∧
      st'.db.svs =
        (pass3_init dbWithNA).db.svs ++ [rowSV exCoordCols exEmptyEndRow 100 0 "full"] ∧
      st'.skipped_rows = (pass3_init dbWithNA).skipped_rows) ∧
    pass3_step exCoordCols (pass3_init dbWithNA) exBadStartRow = Except.ok
      { pass3_init dbWithNA with total_rows := 1, full_count := 1, skipped_rows := 1 } ∧
    pass3_step exCoordCols (pass3_init dbWithNA) exBadEndRow = Except.ok
      { pass3_init dbWithNA with total_rows := 1, full_count := 1, skipped_rows := 1 } :=
  ⟨C9_coordinate_defaults.1 exCoordCols (pass3_init dbWithNA) exEmptyStartRow 200 rfl rfl rfl
      (by decide) (by decide),
    C9_coordinate_defaults.2.1 exCoordCols (pass3_init dbWithNA) exEmptyEndRow 100 rfl rfl rfl
      (by decide) (by decide),
    C9_coordinate_defaults.2.2.1 exCoordCols (pass3_init dbWithNA) exBadStartRow rfl
      (by decide) rfl,
    C9_coordinate_defaults.2.2.2 exCoordCols (pass3_init dbWithNA) exBadEndRow 100 rfl rfl
      (by decide) rfl⟩

/-! ## C4: an invalid annotation mode aborts the whole import in pass 3 -/

theorem lookup_pair_mem {l : List (Char × Char)} {k v : Char}
    (h : List.lookup k l = some v) : (k, v) ∈ l := by
  induction l with
  | nil => simp [List.lookup] at h
  | cons p t ih =>
    rw [List.lookup] at h
    split at h
    · rename_i hkey
      have hk : k = p.1 := beq_iff_eq.mp hkey
      cases h
      rw [hk, Prod.mk.eta]
      exact List.mem_cons_self p t
    · exact List.mem_cons_of_mem _ (ih h)

theorem lowerPairs_facts :
    ∀ p ∈ lowerPairs, isPySpace p.1 = false ∧ isPySpace p.2 = false ∧
      List.lookup p.2 lowerPairs = none := by
  decide

theorem isPySpace_lower (c : Char) : isPySpace (asciiLowerChar c) = isPySpace c := by
  unfold asciiLowerChar
  cases hl : List.lookup c lowerPairs with
  | none => rfl
  | some l =>
    have hf := lowerPairs_facts (c, l) (lookup_pair_mem hl)
    simp only [Option.getD_some]
    rw [hf.2.1, hf.1]

theorem asciiLowerChar_idem (c : Char) :
    asciiLowerChar (asciiLowerChar c) = asciiLowerChar c := by
  unfold asciiLowerChar
  cases hl : List.lookup c lowerPairs with
  | none => simp [hl]
  | some l =>
    have hf := lowerPairs_facts (c, l) (lookup_pair_mem hl)
    simp only [Option.getD_some]
    rw [hf.2.2]
    rfl

theorem dropWhile_eq_self_of_append (p : Char → Bool) (z r y : List Char)
    (hzy : z ++ r = y) (hy : y.dropWhile p = y) : z.dropWhile p = z := by
  cases z with
  | nil => rfl
  | cons a t =>
    have hpa : ¬ p a = true := by
      intro hpa
      subst hzy
      rw [List.cons_append, List.dropWhile_cons, if_pos hpa] at hy
      have hle := (List.dropWhile_sublist (l := t ++ r) p ).length_le
      rw [hy] at hle
      simp only [List.length_cons] at hle
      omega
    rw [List.dropWhile_cons, if_neg hpa]

theorem dropTrailing_append (l : List Char) :
    dropTrailing l ++ (l.reverse.takeWhile isPySpace).reverse = l := by
  unfold dropTrailing
  rw [← List.reverse_append]
  rw [List.takeWhile_append_dropWhile isPySpace l.reverse]
  exact List.reverse_reverse l

theorem dropTrailing_dropWhile_self (y : List Char)
    (hy : y.dropWhile isPySpace = y) :
    (dropTrailing y).dropWhile isPySpace = dropTrailing y :=
  dropWhile_eq_self_of_append isPySpace (dropTrailing y)
    ((y.reverse.takeWhile isPySpace).reverse) y (dropTrailing_append y) hy

theorem dropTrailing_idem_of_dropTrailing (y : List Char) :
    dropTrailing (dropTrailing y) = dropTrailing y := by
  unfold dropTrailing
  rw [List.reverse_reverse, List.dropWhile_idempotent]

theorem pyStripList_idem (l : List Char) : pyStripList (pyStripList l) = pyStripList l := by
  unfold pyStripList
  rw [dropTrailing_dropWhile_self (l.dropWhile isPySpace) (List.dropWhile_idempotent _ _)]
  exact dropTrailing_idem_of_dropTrailing _

theorem dropWhile_map_lower (l : List Char) :
    (l.map asciiLowerChar).dropWhile isPySpace =
      (l.dropWhile isPySpace).map asciiLowerChar := by
  induction l with
  | nil => rfl
  | cons a t ih =>
    rw [List.map_cons, List.dropWhile_cons, List.dropWhile_cons, isPySpace_lower]
    by_cases hpa : isPySpace a = true
    · rw [if_pos hpa, if_pos hpa, ih]
    · rw [if_neg hpa, if_neg hpa, List.map_cons]

theorem pyStripList_map_lower (l : List Char) :
    pyStripList (l.map asciiLowerChar) = (pyStripList l).map asciiLowerChar := by
  unfold pyStripList dropTrailing
  rw [dropWhile_map_lower, ← List.map_reverse .., dropWhile_map_lower, ← List.map_reverse ..]

theorem mode_norm_idem (s : String) :
    pyLower (pyStrip (pyLower (pyStrip s))) = pyLower (pyStrip s) := by
  unfold pyLower pyStrip
  show String.mk ((pyStripList ((pyStripList s.data).map asciiLowerChar)).map asciiLowerChar)
    = String.mk ((pyStripList s.data).map asciiLowerChar)
  rw [pyStripList_map_lower, pyStripList_idem, List.map_map]
  have : asciiLowerChar ∘ asciiLowerChar = asciiLowerChar :=
    funext asciiLowerChar_idem
  rw [this]

theorem check_rowMode_error (cols : Columns) (row : Row)
    (h1 : rowModeRaw cols row ≠ "full") (h2 : rowModeRaw cols row ≠ "split") :
    ∃ msg, check_annotation_mode (rowModeRaw cols row) =
      Except.error (Abort.exitMode msg) := by
  by_cases he : rowModeRaw cols row = ""
  · exact ⟨_, by unfold check_annotation_mode; rw [if_pos he]⟩
  · have hv : pyLower (pyStrip (rowModeRaw cols row)) = rowModeRaw cols row := by
      cases hc : cols.annotation_mode with
      | none =>
        have : rowModeRaw cols row = "" := by unfold rowModeRaw; rw [hc]
        exact absurd this he
      | some c =>
        have hm : rowModeRaw cols row = pyLower (pyStrip (rowGet row (some c))) := by
          unfold rowModeRaw
          rw [hc]
        rw [hm]
        exact mode_norm_idem _
    refine ⟨"Invalid annotation mode " ++ rowModeRaw cols row ++ ". Must be full or split.",
      ?_⟩
    unfold check_annotation_mode
    rw [if_neg he, hv, if_neg (by simp [h1, h2])]

/-- C4: if a data row's annotation-mode value, after trimming and
lowercasing, is missing (empty) or not one of `full`/`split`, and pass 3
reaches that row (the fold over the earlier rows succeeds), then the
whole import aborts with the `exit` diagnostic: pass 3 returns the
process-termination error whose carried state shows exactly one more row
seen than before the bad row (no later row is processed), the import's
outcome is that error, and `passStart 4` never appears in the trace
(pass 4 never runs). -/
theorem C4_invalid_mode_aborts (file : InputFile) (db : DB) (pre : List Row) (bad : Row)
    (rest : List Row) (st : Pass3State)
    (hrows : file.rows = pre ++ bad :: rest)
    (h1 : rowModeRaw (detectColumns file.header) bad ≠ "full")
    (h2 : rowModeRaw (detectColumns file.header) bad ≠ "split")
    (hreach : List.foldlM (pass3_step (detectColumns file.header))
      (pass3_init (dbAfterPass2 file db)) pre = Except.ok st) :
    ∃ msg,
      pass3 (detectColumns file.header) file.rows (dbAfterPass2 file db) =
        Except.error (Abort.exitMode msg, { st with total_rows := st.total_rows + 1 }) ∧
      (import_tsv file db).outcome = Except.error (Abort.exitMode msg) ∧
      Ev.passStart 4 ∉ (import_tsv file db).trace := by
  rcases check_rowMode_error (detectColumns file.header) bad h1 h2 with ⟨msg, hchk⟩
  have hbad : pass3_step (detectColumns file.header) st bad =
      Except.error (Abort.exitMode msg, { st with total_rows := st.total_rows + 1 }) :=
    pass3_checked_err (detectColumns file.header)
      { st with total_rows := st.total_rows + 1 } bad (Abort.exitMode msg) hchk
  have hsplitfold : List.foldlM (pass3_step (detectColumns file.header))
      (pass3_init (dbAfterPass2 file db)) (pre ++ bad :: rest) =
      List.foldlM (pass3_step (detectColumns file.header)) st (bad :: rest) := by
    rw [foldlM_except_append, hreach]
  have hp3 : pass3 (detectColumns file.header) file.rows (dbAfterPass2 file db) =
      Except.error (Abort.exitMode msg, { st with total_rows := st.total_rows + 1 }) := by
    unfold pass3
    rw [hrows, hsplitfold, List.foldlM_cons, hbad]
    rfl
  have hout : (import_tsv file db).outcome = Except.error (Abort.exitMode msg) := by
    unfold import_tsv
    rw [hp3]
  have htr : (import_tsv file db).trace = preTrace file db ++ [Ev.passStart 3] := by
    unfold import_tsv
    rw [hp3]
  refine ⟨msg, hp3, hout, ?_⟩
  rw [htr]
  simp [preTrace, List.mem_replicate]

/-- Witness for `C4_invalid_mode_aborts`: the file `exBadMode`, whose
single row has mode `weird`, aborts the import with no pass 4. -/
theorem C4_invalid_mode_witness :
    ∃ msg,
      pass3 (detectColumns exBadMode.header) exBadMode.rows (dbAfterPass2 exBadMode emptyDB) =
        Except.error (Abort.exitMode msg,
          { pass3_init (dbAfterPass2 exBadMode emptyDB) with total_rows := 1 }) ∧
      (import_tsv exBadMode emptyDB).outcome = Except.error (Abort.exitMode msg) ∧
      Ev.passStart 4 ∉ (import_tsv exBadMode emptyDB).trace :=
  C4_invalid_mode_aborts exBadMode emptyDB [] [("Annotation_mode", "weird")] []
    (pass3_init (dbAfterPass2 exBadMode emptyDB)) rfl (by decide) (by decide) rfl

/-! ## C6: one SV row per identity tuple within a run -/

theorem check_mode_ok_cases (s m : String) (h : check_annotation_mode s = Except.ok m) :
    m = "full" ∨ m = "split" := by
  unfold check_annotation_mode at h
  split at h
  · exact Except.noConfusion h
  · split at h
    · rename_i hcond
      cases h
      simpa using hcond
    · exact Except.noConfusion h

theorem rowFullKey_of_split (cols : Columns) (row : Row)
    (hc : check_annotation_mode (rowModeRaw cols row) = Except.ok "split") :
    rowFullKey cols row = none := by
  unfold rowFullKey
  rw [hc]
  rfl

theorem rowFullKey_of_full (cols : Columns) (row : Row) (s e : Int)
    (hc : check_annotation_mode (rowModeRaw cols row) = Except.ok "full")
    (h1 : svCoordOf cols.sv_start row = some s) (h2 : svCoordOf cols.sv_end row = some e) :
    rowFullKey cols row = some (rowKey cols row s e "full") := by
  unfold rowFullKey
  rw [hc]
  show (match svCoordOf cols.sv_start row, svCoordOf cols.sv_end row with
    | some s', some e' => some (rowKey cols row s' e' "full")
    | _, _ => none) = some (rowKey cols row s e "full")
  rw [h1, h2]

theorem rowFullKey_of_failL (cols : Columns) (row : Row)
    (hc : check_annotation_mode (rowModeRaw cols row) = Except.ok "full")
    (h1 : svCoordOf cols.sv_start row = none) :
    rowFullKey cols row = none := by
  unfold rowFullKey
  rw [hc]
  show (match svCoordOf cols.sv_start row, svCoordOf cols.sv_end row with
    | some s', some e' => some (rowKey cols row s' e' "full")
    | _, _ => none) = none
  rw [h1]

theorem rowFullKey_of_failR (cols : Columns) (row : Row) (s : Int)
    (hc : check_annotation_mode (rowModeRaw cols row) = Except.ok "full")
    (h1 : svCoordOf cols.sv_start row = some s) (h2 : svCoordOf cols.sv_end row = none) :
    rowFullKey cols row = none := by
  unfold rowFullKey
  rw [hc]
  show (match svCoordOf cols.sv_start row, svCoordOf cols.sv_end row with
    | some s', some e' => some (rowKey cols row s' e' "full")
    | _, _ => none) = none
  rw [h1, h2]

theorem insert_sv_sample_frame (sv_id : Nat) (b b' : Pass3State) (a : String)
    (h : insert_sv_sample sv_id b a = Except.ok b') :
    b'.db.svs = b.db.svs ∧ b'.processed_sv = b.processed_sv ∧ b'.db.genes = b.db.genes := by
  unfold insert_sv_sample at h
  split at h
  · cases h
    exact ⟨rfl, rfl, rfl⟩
  · split at h
    · cases h
      exact ⟨rfl, rfl, rfl⟩
    · exact Except.noConfusion h

theorem pass3_link_frame (cols : Columns) (st st' : Pass3State) (row : Row) (m : String)
    (h : pass3_link cols st row m = Except.ok st') :
    st'.db.svs = st.db.svs ∧ st'.processed_sv = st.processed_sv ∧
    st'.db.genes = st.db.genes := by
  unfold pass3_link at h
  split at h
  · cases h
    exact ⟨rfl, rfl, rfl⟩
  · exact foldlM_except_induct
      (fun b => b.db.svs = st.db.svs ∧ b.processed_sv = st.processed_sv ∧
        b.db.genes = st.db.genes)
      (insert_sv_sample _)
      (fun b a b' hba ⟨e1, e2, e3⟩ =>
        have hf := insert_sv_sample_frame _ b b' a hba
        ⟨hf.1.trans e1, hf.2.1.trans e2, hf.2.2.trans e3⟩)
      _ st st' h ⟨rfl, rfl, rfl⟩

theorem pass3_step_svs (cols : Columns) (st st' : Pass3State) (row : Row)
    (h : pass3_step cols st row = Except.ok st') :
    ∃ add : List SVRow,
      st'.db.svs = st.db.svs ++ add ∧
      st'.processed_sv = st.processed_sv ++ add.map svKeyOf ∧
      (st.processed_sv.Nodup → st'.processed_sv.Nodup) ∧
      (∀ k, rowFullKey cols row = some k → k ∈ st'.processed_sv) ∧
      st'.db.genes = st.db.genes := by
  cases hc : check_annotation_mode (rowModeRaw cols row) with
  | error a =>
    exact Except.noConfusion
      ((pass3_checked_err cols { st with total_rows := st.total_rows + 1 } row a hc).symm.trans
        h)
  | ok m =>
    rcases check_mode_ok_cases _ m hc with rfl | rfl
    · -- full
      have hA : pass3_step cols st row =
          pass3_full cols
            { st with total_rows := st.total_rows + 1, full_count := st.full_count + 1 }
            row "full" :=
        pass3_checked_full cols { st with total_rows := st.total_rows + 1 } row hc
      cases h1 : svCoordOf cols.sv_start row with
      | none =>
        rw [hA, pass3_full_skipL cols _ row "full" h1] at h
        cases h
        exact ⟨[], by simp, by simp, fun hnd => hnd,
          fun k hk => absurd hk (by rw [rowFullKey_of_failL cols row hc h1]; simp), rfl⟩
      | some s =>
        cases h2 : svCoordOf cols.sv_end row with
        | none =>
          rw [hA, pass3_full_skipR cols _ row "full" s h1 h2] at h
          cases h
          exact ⟨[], by simp, by simp, fun hnd => hnd,
            fun k hk => absurd hk (by rw [rowFullKey_of_failR cols row s hc h1 h2]; simp),
            rfl⟩
        | some e =>
          have hB := pass3_full_eq cols
            { st with total_rows := st.total_rows + 1, full_count := st.full_count + 1 }
            row "full" s e h1 h2
          by_cases hdup : rowKey cols row s e "full" ∈ st.processed_sv
          · rw [hA, hB, pass3_insert_dup cols
              { st with total_rows := st.total_rows + 1, full_count := st.full_count + 1 }
              row s e "full" hdup] at h
            cases h
            refine ⟨[], by simp, by simp, fun hnd => hnd, ?_, rfl⟩
            intro k hk
            rw [rowFullKey_of_full cols row s e hc h1 h2] at hk
            cases hk
            exact hdup
          · rw [hA, hB, pass3_insert_fresh cols
              { st with total_rows := st.total_rows + 1, full_count := st.full_count + 1 }
              row s e "full" hdup] at h
            have hframe := pass3_link_frame cols _ st' row "full" h
            refine ⟨[rowSV cols row s e "full"], ?_, ?_, ?_, ?_, ?_⟩
            · rw [hframe.1]
            · rw [hframe.2.1]
              rfl
            · intro hnd
              rw [hframe.2.1]
              refine List.Nodup.append hnd (List.nodup_singleton _) ?_
              intro x hx hx'
              rw [List.mem_singleton] at hx'
              subst hx'
              exact hdup hx
            · intro k hk
              rw [rowFullKey_of_full cols row s e hc h1 h2] at hk
              cases hk
              rw [hframe.2.1]
              exact List.mem_append_right _ (List.mem_singleton.mpr rfl)
            · exact hframe.2.2
    · -- split
      rw [show pass3_step cols st row = Except.ok
          { st with total_rows := st.total_rows + 1, split_count := st.split_count + 1 } from
          pass3_checked_split cols { st with total_rows := st.total_rows + 1 } row hc] at h
      cases h
      exact ⟨[], by simp, by simp, fun hnd => hnd,
        fun k hk => absurd hk (by rw [rowFullKey_of_split cols row hc]; simp), rfl⟩

theorem pass3_fold_svs (cols : Columns) (rows : List Row) :
    ∀ st0 st1, List.foldlM (pass3_step cols) st0 rows = Except.ok st1 →
      ∃ new : List SVRow,
        st1.db.svs = st0.db.svs ++ new ∧
        st1.processed_sv = st0.processed_sv ++ new.map svKeyOf ∧
        (st0.processed_sv.Nodup → st1.processed_sv.Nodup) ∧
        (∀ row ∈ rows, ∀ k, rowFullKey cols row = some k → k ∈ st1.processed_sv) ∧
        st1.db.genes = st0.db.genes := by
  induction rows with
  | nil =>
    intro st0 st1 h
    simp only [List.foldlM_nil, pure, Except.pure, Except.ok.injEq] at h
    subst h
    exact ⟨[], by simp, by simp, fun hnd => hnd, by simp, rfl⟩
  | cons r t ih =>
    intro st0 st1 h
    rw [List.foldlM_cons] at h
    cases hstep : pass3_step cols st0 r with
    | error e =>
      rw [hstep] at h
      simp [Bind.bind, Except.bind] at h
    | ok stm =>
      rw [hstep] at h
      simp only [Bind.bind, Except.bind] at h
      rcases pass3_step_svs cols st0 stm r hstep with ⟨a1, e1, p1, n1, k1, g1⟩
      rcases ih stm st1 h with ⟨a2, e2, p2, n2, k2, g2⟩
      refine ⟨a1 ++ a2, ?_, ?_, ?_, ?_, g2.trans g1⟩
      · rw [e2, e1, List.append_assoc]
      · rw [p2, p1, List.map_append, List.append_assoc]
      · intro hnd
        exact n2 (n1 hnd)
      · intro row hrow k hk
        rcases List.mem_cons.mp hrow with rfl | hrow
        · have hmem := k1 k hk
          rw [p2]
          exact List.mem_append_left _ hmem
        · exact k2 row hrow k hk

theorem sv_gene_db_svs (db : DB) (i j : Nat) : (sv_gene_db db i j).svs = db.svs := by
  unfold sv_gene_db
  split <;> rfl

theorem pass4_tx_insert_svs (cols : Columns) (st : Pass4State) (row : Row)
    (aid : String) (tx_id : Nat) :
    (pass4_tx_insert cols st row aid tx_id).db.svs = st.db.svs := by
  unfold pass4_tx_insert
  split
  · split <;> rfl
  · rfl

theorem pass4_tx_part_svs (cols : Columns) (st : Pass4State) (row : Row)
    (aid nm : String) (v : Option String) (s1 s2 : String) :
    (pass4_tx_part cols st row aid nm v s1 s2).db.svs = st.db.svs := by
  unfold pass4_tx_part
  split
  · split
    · rename_i o1 o2 ts te hts hte
      rw [pass4_tx_insert_svs]
      exact (goc_transcript_frame st.db nm v ts te).1
    · rfl
  · rfl

theorem pass4_gene_part_svs (st : Pass4State) (aid g : String) :
    (pass4_gene_part st aid g).db.svs = st.db.svs := by
  unfold pass4_gene_part
  split
  · split
    · rw [sv_gene_db_svs]
      exact (goc_gene_frame st.db g).1
    · rfl
  · rfl

theorem pass4_step_svs (cols : Columns) (st : Pass4State) (row : Row) :
    (pass4_step cols st row).db.svs = st.db.svs := by
  unfold pass4_step
  split
  · rw [pass4_gene_part_svs, pass4_tx_part_svs]
  · rfl

theorem pass4_fold_svs (cols : Columns) (rows : List Row) :
    ∀ st : Pass4State, (rows.foldl (pass4_step cols) st).db.svs = st.db.svs := by
  induction rows with
  | nil => intro st; rfl
  | cons r t ih =>
    intro st
    rw [List.foldl_cons, ih, pass4_step_svs]

/-- C6: on every completed run, pass 3 appends to the `SV` table a block
of new rows whose identity tuples are pairwise distinct; every row of
the input that qualifies as a `full` SV row (mode check passes as
`full`, coordinates parse) has its tuple present in that block — so a
tuple appearing in several full rows of one input yields exactly one new
SV row in this run, later occurrences being skipped by the in-memory
`processed_sv` guard. -/
theorem C6_unique_sv_per_key (file : InputFile) (db : DB) (d : DB)
    (h : importOk file db = some d) :
    ∃ new : List SVRow,
      d.svs = db.svs ++ new ∧ (new.map svKeyOf).Nodup ∧
      ∀ row ∈ file.rows, ∀ k, rowFullKey (detectColumns file.header) row = some k →
        k ∈ new.map svKeyOf := by
  cases hp : pass3 (detectColumns file.header) file.rows (dbAfterPass2 file db) with
  | error ap =>
    unfold importOk import_tsv at h
    rw [hp] at h
    exact Option.noConfusion h
  | ok st3 =>
    have hd : (pass4 (detectColumns file.header) file.rows st3.db).db = d := by
      unfold importOk import_tsv at h
      rw [hp] at h
      exact Option.some.inj h
    rcases pass3_fold_svs (detectColumns file.header) file.rows
        (pass3_init (dbAfterPass2 file db)) st3 hp with ⟨new, e1, p1, n1, k1, g1⟩
    have hsvs : d.svs = st3.db.svs := by
      rw [← hd]
      exact pass4_fold_svs (detectColumns file.header) file.rows _
    refine ⟨new, ?_, ?_, ?_⟩
    · rw [hsvs, e1]
      rfl
    · have hn := n1 List.nodup_nil
      rw [p1] at hn
      simpa using hn
    · intro row hrow k hk
      have hmem := k1 row hrow k hk
      rw [p1] at hmem
      simpa [pass3_init, List.mem_map] using hmem

/-- Witness for `C6_unique_sv_per_key` on the concrete run importing
`exTwice` into a fresh store. -/
theorem C6_unique_sv_witness :
    importOk exTwice emptyDB = some exTwiceDB ∧
    ∃ new : List SVRow,
      exTwiceDB.svs = (emptyDB : DB).svs ++ new ∧ (new.map svKeyOf).Nodup ∧
      ∀ row ∈ exTwice.rows, ∀ k, rowFullKey (detectColumns exTwice.header) row = some k →
        k ∈ new.map svKeyOf :=
  ⟨by decide, C6_unique_sv_per_key exTwice emptyDB exTwiceDB (by decide)⟩

/-! ## C7: gene rows come only from split-mode rows -/

theorem mem_pass2_row_gene (gc ac : String) (acc : List String) (row : Row) (y : String)
    (hy : y ∈ pass2_row_gene gc ac acc row) :
    y ∈ acc ∨ (pyLower (pyStrip (rowGet row (some ac))) = "split" ∧
      y = pyStrip (rowGet row (some gc))) := by
  unfold pass2_row_gene at hy
  split at hy
  · rename_i hm
    split at hy
    · rcases mem_insertNew.mp hy with h | h
      · exact Or.inl h
      · exact Or.inr ⟨hm, h⟩
    · exact Or.inl hy
  · exact Or.inl hy

theorem mem_pass2_fold (gc ac : String) (rows : List Row) (y : String) :
    ∀ acc, y ∈ rows.foldl (pass2_row_gene gc ac) acc →
      y ∈ acc ∨ ∃ r ∈ rows, pyLower (pyStrip (rowGet r (some ac))) = "split" ∧
        y = pyStrip (rowGet r (some gc)) := by
  induction rows with
  | nil =>
    intro acc hy
    exact Or.inl hy
  | cons r t ih =>
    intro acc hy
    rw [List.foldl_cons] at hy
    rcases ih _ hy with h | ⟨a, ha, hm, hv⟩
    · rcases mem_pass2_row_gene gc ac acc r y h with h' | ⟨hm, hv⟩
      · exact Or.inl h'
      · exact Or.inr ⟨r, List.mem_cons_self r t, hm, hv⟩
    · exact Or.inr ⟨a, List.mem_cons_of_mem r ha, hm, hv⟩

theorem goc_gene_genes (db : DB) (n : String) :
    (get_or_create_gene db n).1.genes = db.genes ∨
    (get_or_create_gene db n).1.genes = db.genes ++ [n] := by
  unfold get_or_create_gene
  split
  · exact Or.inl rfl
  · exact Or.inr rfl

theorem sv_gene_db_genes (db : DB) (i j : Nat) : (sv_gene_db db i j).genes = db.genes := by
  unfold sv_gene_db
  split <;> rfl

theorem pass4_tx_insert_genes (cols : Columns) (st : Pass4State) (row : Row)
    (aid : String) (tx_id : Nat) :
    (pass4_tx_insert cols st row aid tx_id).db.genes = st.db.genes := by
  unfold pass4_tx_insert
  split
  · split <;> rfl
  · rfl

theorem pass4_tx_part_genes (cols : Columns) (st : Pass4State) (row : Row)
    (aid nm : String) (v : Option String) (s1 s2 : String) :
    (pass4_tx_part cols st row aid nm v s1 s2).db.genes = st.db.genes := by
  unfold pass4_tx_part
  split
  · split
    · rename_i o1 o2 ts te hts hte
      rw [pass4_tx_insert_genes]
      exact (goc_transcript_frame st.db nm v ts te).2.2.1
    · rfl
  · rfl

theorem pass4_gene_part_no_g (st : Pass4State) (aid gn g : String)
    (hne : gn ≠ g) (hg : g ∉ st.db.genes) :
    g ∉ (pass4_gene_part st aid gn).db.genes := by
  unfold pass4_gene_part
  split
  · split
    · rename_i sv_id hsv
      show g ∉ (sv_gene_db (get_or_create_gene st.db gn).1 sv_id
        (get_or_create_gene st.db gn).2).genes
      rw [sv_gene_db_genes]
      rcases goc_gene_genes st.db gn with he | he
      · rw [he]
        exact hg
      · rw [he]
        intro hmem
        rcases List.mem_append.mp hmem with h | h
        · exact hg h
        · exact (Ne.symm hne) (List.mem_singleton.mp h)
    · exact hg
  · exact hg

theorem pass4_step_no_g (cols : Columns) (st : Pass4State) (row : Row) (g : String)
    (hrow : pyLower (pyStrip (rowGet row cols.annotation_mode)) = "split" →
      pyStrip (rowGet row cols.gene) ≠ g)
    (hg : g ∉ st.db.genes) : g ∉ (pass4_step cols st row).db.genes := by
  unfold pass4_step
  split
  · rename_i hm
    refine pass4_gene_part_no_g _ _ _ g (hrow hm) ?_
    rw [pass4_tx_part_genes]
    exact hg
  · exact hg

theorem pass4_fold_no_g (cols : Columns) (g : String) :
    ∀ rows : List Row,
      (∀ row ∈ rows, pyLower (pyStrip (rowGet row cols.annotation_mode)) = "split" →
        pyStrip (rowGet row cols.gene) ≠ g) →
      ∀ st : Pass4State, g ∉ st.db.genes → g ∉ (rows.foldl (pass4_step cols) st).db.genes := by
  intro rows
  induction rows with
  | nil =>
    intro hsplit st hg
    exact hg
  | cons r t ih =>
    intro hsplit st hg
    rw [List.foldl_cons]
    exact ih (fun row hrow => hsplit row (List.mem_cons_of_mem r hrow)) _
      (pass4_step_no_g cols st r g (hsplit r (List.mem_cons_self r t)) hg)

/-- C7: a gene name `g` that appears (as the trimmed `Gene_name` value)
in no `split`-mode row of the input, and is not already in the store, is
absent from the `genes` table after the import: pass 2 collects gene
names only from split rows and pass 4 resolves genes only for split
rows, so names occurring only in `full`-mode rows never produce a Gene
row. -/
theorem C7_full_only_gene_names (file : InputFile) (db : DB) (d : DB) (g : String)
    (h : importOk file db = some d)
    (hg : g ∉ db.genes)
    (hsplit : ∀ row ∈ file.rows,
      pyLower (pyStrip (rowGet row (detectColumns file.header).annotation_mode)) = "split" →
      pyStrip (rowGet row (detectColumns file.header).gene) ≠ g) :
    g ∉ d.genes := by
  have hg2 : g ∉ (dbAfterPass2 file db).genes := by
    intro hmem
    have hmem' : g ∈ (pass2_all_genes (detectColumns file.header).gene
        (detectColumns file.header).annotation_mode file.rows).foldl insertNew db.genes :=
      hmem
    rcases (mem_foldl_insertNew _ _ _).mp hmem' with h' | h'
    · exact hg h'
    · cases hgc : (detectColumns file.header).gene with
      | none =>
        rw [hgc] at h'
        simp [pass2_all_genes] at h'
      | some gc =>
        cases hac : (detectColumns file.header).annotation_mode with
        | none =>
          rw [hgc, hac] at h'
          simp [pass2_all_genes] at h'
        | some ac =>
          rw [hgc, hac] at h'
          have h'' : g ∈ file.rows.foldl (pass2_row_gene gc ac) [] := h'
          rcases mem_pass2_fold gc ac file.rows g [] h'' with h3 | ⟨r, hr, hm, hv⟩
          · simp at h3
          · refine hsplit r hr ?_ ?_
            · rw [hac]
              exact hm
            · rw [hgc]
              exact hv.symm
  cases hp : pass3 (detectColumns file.header) file.rows (dbAfterPass2 file db) with
  | error ap =>
    unfold importOk import_tsv at h
    rw [hp] at h
    exact Option.noConfusion h
  | ok st3 =>
    have hd : (pass4 (detectColumns file.header) file.rows st3.db).db = d := by
      unfold importOk import_tsv at h
      rw [hp] at h
      exact Option.some.inj h
    rcases pass3_fold_svs (detectColumns file.header) file.rows
        (pass3_init (dbAfterPass2 file db)) st3 hp with ⟨new, e1, p1, n1, k1, g1⟩
    have hg3 : g ∉ st3.db.genes := by
      rw [g1]
      exact hg2
    rw [← hd]
    exact pass4_fold_no_g (detectColumns file.header) g file.rows hsplit _ hg3

/-- Witness for `C7_full_only_gene_names`: the gene name `G9` appears in
no row of `exTwice` (whose only row is `full`-mode), and is absent from
the store after the import. -/
theorem C7_full_only_witness :
    importOk exTwice emptyDB = some exTwiceDB ∧ "G9" ∉ (emptyDB : DB).genes ∧
    "G9" ∉ exTwiceDB.genes :=
  ⟨by decide, by decide,
    C7_full_only_gene_names exTwice emptyDB exTwiceDB "G9" (by decide) (by decide)
      (by decide)⟩

end AnnotSV
